import Mathlib

/-!
Verification development for the Stability AI client repository.

The request-normalization layer (`src/api_schemas.py`), the image validator
(`src/utils/file_handler.py`), and the HTTP client's response classification
and endpoint wrappers (`src/stability_client.py`) are shallowly embedded
below.  Conventions:

* Python `dict` inputs to the pydantic models are embedded as a record
  `RawFields` whose fields are `Option`-valued: `none` means the key is
  absent from the dict.  Keys that are not fields of any schema are carried
  in `extras` (pydantic v1's default config ignores extra keys).
* `.dict(exclude_none=True)` output is embedded as the same record type:
  a field is present in the output dict iff it is `some` in the result.
* Python `float` fields are embedded as `Rat`.  All range constants in the
  source (0.0, 0.1, 1.0, 2.5) are exactly representable in binary floating
  point and the compared quantities are far from the thresholds relative to
  rounding error, so the rational comparisons below agree with the source's
  float comparisons.
* Python `str.strip()` is embedded as `pyStrip`, removing from both ends
  exactly the characters Python's `str.isspace()` treats as whitespace.
-/

/-- Whitespace characters removed by Python `str.strip()`: exactly the code
points for which `str.isspace()` holds (Unicode bidirectional class WS, B or
S, or general category Zs): 0x09-0x0D, 0x1C-0x1F, space, NEL (0x85),
NBSP (0xA0), Ogham space (0x1680), 0x2000-0x200A, line and paragraph
separators (0x2028, 0x2029), narrow no-break space (0x202F), medium
mathematical space (0x205F) and ideographic space (0x3000). -/
def isPyWs (c : Char) : Bool :=
  (0x09 ≤ c.val && c.val ≤ 0x0d) || c.val = 0x20 ||
  (0x1c ≤ c.val && c.val ≤ 0x1f) || c.val = 0x85 || c.val = 0xa0 ||
  c.val = 0x1680 || (0x2000 ≤ c.val && c.val ≤ 0x200a) ||
  c.val = 0x2028 || c.val = 0x2029 || c.val = 0x202f ||
  c.val = 0x205f || c.val = 0x3000

/-- Strip leading whitespace. -/
def stripLeft (l : List Char) : List Char := l.dropWhile isPyWs

/-- Strip trailing whitespace. -/
def stripRight (l : List Char) : List Char :=
  (l.reverse.dropWhile isPyWs).reverse

/-- List-level model of Python `str.strip()`. -/
def stripList (l : List Char) : List Char := stripRight (stripLeft l)

/-- Model of Python `str.strip()` on strings. -/
def pyStrip (s : String) : String := ⟨stripList s.data⟩

theorem length_dropWhile_le_self (p : Char → Bool) (l : List Char) :
    (l.dropWhile p).length ≤ l.length := by
  induction l with
  | nil => simp
  | cons a t ih =>
    by_cases h : p a <;> simp [List.dropWhile_cons, h] <;> omega

theorem dropWhile_append_fix (p : Char → Bool) (xs ys : List Char)
    (h : (xs ++ ys).dropWhile p = xs ++ ys) : xs.dropWhile p = xs := by
  cases xs with
  | nil => rfl
  | cons a t =>
    by_cases hpa : p a
    · exfalso
      have h' : (t ++ ys).dropWhile p = a :: (t ++ ys) := by
        have h2 := h
        rw [List.cons_append, List.dropWhile_cons, if_pos hpa] at h2
        simpa using h2
      have hle := length_dropWhile_le_self p (t ++ ys)
      have hlen := congrArg List.length h'
      simp only [List.length_cons] at hlen
      omega
    · simp [List.dropWhile_cons, hpa]

theorem stripRight_idem (l : List Char) : stripRight (stripRight l) = stripRight l := by
  simp [stripRight, List.dropWhile_idempotent]

theorem stripLeft_stripRight_fix (l : List Char) (h : stripLeft l = l) :
    stripLeft (stripRight l) = stripRight l := by
  have hsplit := List.takeWhile_append_dropWhile (p := isPyWs) (l := l.reverse)
  have hl2 : l = (l.reverse.dropWhile isPyWs).reverse ++ (l.reverse.takeWhile isPyWs).reverse := by
    have hrev := congrArg List.reverse hsplit
    simp only [List.reverse_append, List.reverse_reverse] at hrev
    exact hrev.symm
  unfold stripLeft stripRight at *
  exact dropWhile_append_fix isPyWs _ _ (by rw [← hl2]; exact h)

theorem stripList_idem (l : List Char) : stripList (stripList l) = stripList l := by
  unfold stripList
  rw [show stripLeft (stripRight (stripLeft l)) = stripRight (stripLeft l) from
        stripLeft_stripRight_fix _ (List.dropWhile_idempotent isPyWs l),
      stripRight_idem]

theorem pyStrip_idem (s : String) : pyStrip (pyStrip s) = pyStrip s :=
  congrArg String.mk (stripList_idem s.data)

theorem stripList_length_le (l : List Char) : (stripList l).length ≤ l.length := by
  unfold stripList stripRight stripLeft
  calc ((l.dropWhile isPyWs).reverse.dropWhile isPyWs).reverse.length
      = ((l.dropWhile isPyWs).reverse.dropWhile isPyWs).length := by
        rw [List.length_reverse]
    _ ≤ (l.dropWhile isPyWs).reverse.length := length_dropWhile_le_self _ _
    _ = (l.dropWhile isPyWs).length := by rw [List.length_reverse]
    _ ≤ l.length := length_dropWhile_le_self _ _

theorem pyStrip_length_le (s : String) : (pyStrip s).length ≤ s.length :=
  stripList_length_le s.data

theorem stripList_of_all_ws (l : List Char) (h : l.all isPyWs) : stripList l = [] := by
  have hnil : l.dropWhile isPyWs = [] := by
    induction l with
    | nil => rfl
    | cons a t ih =>
      simp only [List.all_cons, Bool.and_eq_true] at h
      rw [List.dropWhile_cons, if_pos h.1]
      exact ih h.2
  unfold stripList stripLeft stripRight
  rw [hnil]
  rfl

/-! ## Data model (`src/api_schemas.py`)

Enumerations mirror the `Enum` classes of the source; `value` functions give
the Python string values. -/

inductive OutputFormat
  | png | jpeg | webp
deriving DecidableEq

def OutputFormat.value : OutputFormat → String
  | .png => "png" | .jpeg => "jpeg" | .webp => "webp"

inductive AspectRatio
  | square | landscape_16_9 | portrait_9_16 | landscape_3_2
  | portrait_2_3 | landscape_4_3 | portrait_3_4
deriving DecidableEq

def AspectRatio.value : AspectRatio → String
  | .square => "1:1" | .landscape_16_9 => "16:9" | .portrait_9_16 => "9:16"
  | .landscape_3_2 => "3:2" | .portrait_2_3 => "2:3" | .landscape_4_3 => "4:3"
  | .portrait_3_4 => "3:4"

inductive StylePreset
  | nonePreset | photographic | anime | digitalArt | model3d
  | pixelArt | cinematic | fantasyArt | illustration
deriving DecidableEq

def StylePreset.value : StylePreset → String
  | .nonePreset => "" | .photographic => "photographic" | .anime => "anime"
  | .digitalArt => "digital-art" | .model3d => "3d-model" | .pixelArt => "pixel-art"
  | .cinematic => "cinematic" | .fantasyArt => "fantasy-art" | .illustration => "illustration"

inductive GenerationMode
  | textToImage | imageToImage
deriving DecidableEq

def GenerationMode.value : GenerationMode → String
  | .textToImage => "text-to-image" | .imageToImage => "image-to-image"

inductive SD35Model
  | large | largeTurbo | medium
deriving DecidableEq

/-- A raw request dict and likewise a normalized output dict.  A field is
`some` iff the corresponding key is present in the dict; `extras` carries
keys that are not fields of any schema (pydantic v1 ignores them). -/
structure RawFields where
  prompt : Option String
  negative_prompt : Option String
  output_format : Option OutputFormat
  style_preset : Option StylePreset
  seed : Option Int
  mode : Option GenerationMode
  model : Option SD35Model
  aspect_ratio : Option AspectRatio
  strength : Option Rat
  control_strength : Option Rat
  fidelity : Option Rat
  style_strength : Option Rat
  composition_fidelity : Option Rat
  change_strength : Option Rat
  extras : List String
deriving DecidableEq

def RawFields.empty : RawFields :=
  ⟨none, none, none, none, none, none, none, none, none, none, none, none, none, none, []⟩

/-- Errors of the normalization layer.  `validation` stands for pydantic's
`ValidationError`; `unsupported` stands for the plain `ValueError` raised by
`validate_request_for_model` for an unknown model type — a different,
non-overlapping kind. -/
inductive NormError
  | validation (msg : String)
  | unsupported (model_type : String)
deriving DecidableEq

/-! ## Field parsers (pydantic v1 semantics)

Field constraints (`max_length`, `ge`, `le`) run before `@validator`
functions; each parser returns the value stored on the model. -/

/-- `prompt: str = Field(..., max_length=10000)` plus the `prompt_not_empty`
validator: strips the value and rejects if the strip is empty. -/
def parsePrompt (v : Option String) : Except NormError String :=
  match v with
  | none => .error (.validation "prompt: field required")
  | some s =>
    if 10000 < s.length then .error (.validation "prompt: max_length exceeded")
    else if pyStrip s = "" then .error (.validation "프롬프트는 비어있을 수 없습니다")
    else .ok (pyStrip s)

/-- `negative_prompt: Optional[str] = Field(None, max_length=10000)`. -/
def parseNegativePrompt (v : Option String) : Except NormError (Option String) :=
  match v with
  | none => .ok none
  | some s =>
    if 10000 < s.length then .error (.validation "negative_prompt: max_length exceeded")
    else .ok (some s)

/-- `seed: Optional[int] = Field(None, ge=0, le=2147483647)`. -/
def parseSeed (v : Option Int) : Except NormError (Option Int) :=
  match v with
  | none => .ok none
  | some n =>
    if 0 ≤ n ∧ n ≤ 2147483647 then .ok (some n)
    else .error (.validation "seed: out of range")

/-- A required float field with default `d` and bounds `ge=lo, le=hi`. -/
def parseRangedDefault (name : String) (lo hi d : Rat) (v : Option Rat) :
    Except NormError Rat :=
  match v with
  | none => .ok d
  | some q =>
    if lo ≤ q ∧ q ≤ hi then .ok q
    else .error (.validation (name ++ ": out of range"))

/-- An optional float field with default `None` and bounds `ge=lo, le=hi`. -/
def parseRangedOpt (name : String) (lo hi : Rat) (v : Option Rat) :
    Except NormError (Option Rat) :=
  match v with
  | none => .ok none
  | some q =>
    if lo ≤ q ∧ q ≤ hi then .ok (some q)
    else .error (.validation (name ++ ": out of range"))

/-- Values of the `BaseGenerationRequest` fields after validation. -/
structure BaseOut where
  prompt : String
  negative_prompt : Option String
  output_format : OutputFormat
  style_preset : StylePreset
  seed : Option Int
deriving DecidableEq

/-- Validation of the `BaseGenerationRequest` fields, in declaration order. -/
def parseBase (r : RawFields) : Except NormError BaseOut :=
  match parsePrompt r.prompt with
  | .error e => .error e
  | .ok p =>
    match parseNegativePrompt r.negative_prompt with
    | .error e => .error e
    | .ok np =>
      match parseSeed r.seed with
      | .error e => .error e
      | .ok sd =>
        .ok ⟨p, np, r.output_format.getD .png, r.style_preset.getD .nonePreset, sd⟩

/-! ## Variant normalizers

Each function embeds `<Variant>Request(**request_data).dict(exclude_none=True)`
from `validate_request_for_model`: construct the model (which may raise a
`ValidationError`) and export its fields, dropping `None`-valued ones. -/

/-- `CoreImageRequest(**r).dict(exclude_none=True)`. -/
def normalizeCore (r : RawFields) : Except NormError RawFields :=
  match parseBase r with
  | .error e => .error e
  | .ok b =>
    .ok { RawFields.empty with
          prompt := some b.prompt, negative_prompt := b.negative_prompt,
          output_format := some b.output_format, style_preset := some b.style_preset,
          seed := b.seed, aspect_ratio := some (r.aspect_ratio.getD .square) }

/-- `SD35ImageRequest(**r).dict(exclude_none=True)`: the `validate_aspect_ratio`
validator nulls `aspect_ratio` in image-to-image mode and defaults it to
`1:1` otherwise; the `validate_strength` validator requires `strength` in
image-to-image mode.  Field order puts the `strength` range check before the
required-in-mode check. -/
def normalizeSD35 (r : RawFields) : Except NormError RawFields :=
  match parseBase r with
  | .error e => .error e
  | .ok b =>
    let mode := r.mode.getD .textToImage
    let mdl := r.model.getD .large
    let ar : Option AspectRatio :=
      match mode with
      | .imageToImage => none
      | .textToImage => some (r.aspect_ratio.getD .square)
    match parseRangedOpt "strength" 0 1 r.strength with
    | .error e => .error e
    | .ok st =>
      if mode = .imageToImage ∧ st = none then
        .error (.validation "image-to-image 모드에서는 strength가 필수입니다")
      else
        .ok { RawFields.empty with
              prompt := some b.prompt, negative_prompt := b.negative_prompt,
              output_format := some b.output_format, style_preset := some b.style_preset,
              seed := b.seed, mode := some mode, model := some mdl,
              aspect_ratio := ar, strength := st }

/-- `UltraImageRequest(**r).dict(exclude_none=True)`. -/
def normalizeUltra (r : RawFields) : Except NormError RawFields :=
  match parseBase r with
  | .error e => .error e
  | .ok b =>
    match parseRangedOpt "strength" 0 1 r.strength with
    | .error e => .error e
    | .ok st =>
      .ok { RawFields.empty with
            prompt := some b.prompt, negative_prompt := b.negative_prompt,
            output_format := some b.output_format, style_preset := some b.style_preset,
            seed := b.seed, aspect_ratio := some (r.aspect_ratio.getD .square),
            strength := st }

/-- `SketchRequest(**r).dict(exclude_none=True)` (= `BaseControlRequest`). -/
def normalizeSketch (r : RawFields) : Except NormError RawFields :=
  match parseBase r with
  | .error e => .error e
  | .ok b =>
    match parseRangedDefault "control_strength" 0 1 (7/10) r.control_strength with
    | .error e => .error e
    | .ok cs =>
      .ok { RawFields.empty with
            prompt := some b.prompt, negative_prompt := b.negative_prompt,
            output_format := some b.output_format, style_preset := some b.style_preset,
            seed := b.seed, control_strength := some cs }

/-- `StructureRequest(**r).dict(exclude_none=True)` (= `BaseControlRequest`). -/
def normalizeStructure (r : RawFields) : Except NormError RawFields :=
  match parseBase r with
  | .error e => .error e
  | .ok b =>
    match parseRangedDefault "control_strength" 0 1 (7/10) r.control_strength with
    | .error e => .error e
    | .ok cs =>
      .ok { RawFields.empty with
            prompt := some b.prompt, negative_prompt := b.negative_prompt,
            output_format := some b.output_format, style_preset := some b.style_preset,
            seed := b.seed, control_strength := some cs }

/-- `StyleGuideRequest(**r).dict(exclude_none=True)`. -/
def normalizeStyleGuide (r : RawFields) : Except NormError RawFields :=
  match parseBase r with
  | .error e => .error e
  | .ok b =>
    match parseRangedDefault "control_strength" 0 1 (7/10) r.control_strength with
    | .error e => .error e
    | .ok cs =>
      match parseRangedDefault "fidelity" 0 1 (1/2) r.fidelity with
      | .error e => .error e
      | .ok fid =>
        .ok { RawFields.empty with
              prompt := some b.prompt, negative_prompt := b.negative_prompt,
              output_format := some b.output_format, style_preset := some b.style_preset,
              seed := b.seed, control_strength := some cs, fidelity := some fid }

/-- `StyleTransferRequest(**r).dict(exclude_none=True)`: note the `ge=0.1`
floor on `change_strength`. -/
def normalizeStyleTransfer (r : RawFields) : Except NormError RawFields :=
  match parseBase r with
  | .error e => .error e
  | .ok b =>
    match parseRangedDefault "style_strength" 0 1 1 r.style_strength with
    | .error e => .error e
    | .ok ss =>
      match parseRangedDefault "composition_fidelity" 0 1 (9/10) r.composition_fidelity with
      | .error e => .error e
      | .ok cf =>
        match parseRangedDefault "change_strength" (1/10) 1 (9/10) r.change_strength with
        | .error e => .error e
        | .ok ch =>
          .ok { RawFields.empty with
                prompt := some b.prompt, negative_prompt := b.negative_prompt,
                output_format := some b.output_format, style_preset := some b.style_preset,
                seed := b.seed, style_strength := some ss,
                composition_fidelity := some cf, change_strength := some ch }

/-- The seven model-type tags accepted by `validate_request_for_model`. -/
def supportedModelTypes : List String :=
  ["core", "sd35", "ultra", "sketch", "structure", "style_guide", "style_transfer"]

/-- `validate_request_for_model(model_type, request_data)`: dispatches on the
model-type tag, raising a plain `ValueError` (embedded as
`NormError.unsupported`) for an unknown tag. -/
def validate_request_for_model (model_type : String) (r : RawFields) :
    Except NormError RawFields :=
  if model_type = "core" then normalizeCore r
  else if model_type = "sd35" then normalizeSD35 r
  else if model_type = "ultra" then normalizeUltra r
  else if model_type = "sketch" then normalizeSketch r
  else if model_type = "structure" then normalizeStructure r
  else if model_type = "style_guide" then normalizeStyleGuide r
  else if model_type = "style_transfer" then normalizeStyleTransfer r
  else .error (.unsupported model_type)

/-! ## Image validator (`src/utils/file_handler.py::validate_image_file`) -/

/-- An uploaded file as the validator sees it: declared MIME type, byte
size, whether `PIL.Image.open` succeeds, and the decoded dimensions. -/
structure UploadedFile where
  mime : String
  size : Nat
  decodable : Bool
  width : Nat
  height : Nat
deriving DecidableEq

def msgNoFile : String := "파일이 업로드되지 않았습니다."
def msgBadMime : String := "지원되지 않는 이미지 형식입니다. (JPEG, PNG, WebP만 지원)"
def msgTooLarge : String := "파일 크기가 너무 큽니다. (최대 50MB)"
def msgUnreadable : String := "이미지 파일을 읽을 수 없습니다"
def msgTooSmall : String := "이미지 크기가 너무 작습니다. (최소 64x64px)"
def msgTooManyPixels : String := "이미지 픽셀 수가 너무 많습니다. (최대 9,437,184 픽셀)"
def msgBadAspect : String := "종횡비가 2.5:1을 초과할 수 없습니다."
def msgValidImage : String := "유효한 이미지 파일입니다."

/-- `validate_image_file(uploaded_file)`; returns `(is_valid, message)`.
The source compares `max(w,h)/min(w,h) > 2.5` in floating point; since the
decoded dimensions here are positive integers and 2.5 is exactly
representable, that comparison agrees with the exact rational comparison
`2 * max > 5 * min` used below. -/
def validate_image_file (f : Option UploadedFile) : Bool × String :=
  match f with
  | none => (false, msgNoFile)
  | some u =>
    if ¬ (u.mime = "image/jpeg" ∨ u.mime = "image/png" ∨ u.mime = "image/webp") then
      (false, msgBadMime)
    else if 50 * 1024 * 1024 < u.size then (false, msgTooLarge)
    else if ¬ u.decodable then (false, msgUnreadable)
    else if u.width < 64 ∨ u.height < 64 then (false, msgTooSmall)
    else if 9437184 < u.width * u.height then (false, msgTooManyPixels)
    else if 5 * min u.width u.height < 2 * max u.width u.height then (false, msgBadAspect)
    else (true, msgValidImage)

/-! ## HTTP client (`src/stability_client.py`) -/

/-- Failures surfaced by `StabilityClient` methods: `valueError` embeds the
plain `ValueError`s raised locally before any network activity, and
`apiError` embeds `StabilityClientError` raised from a non-2xx response. -/
inductive ClientFailure
  | valueError (msg : String)
  | apiError (message : String) (status_code : Option Nat)
deriving DecidableEq

/-- An HTTP response: status code, raw body text, and the outcome of
attempting to parse the body as a JSON object (`none` when `.json()`
raises), its string-valued entries listed. -/
structure HttpResponse where
  status : Nat
  body : String
  jsonFields : Option (List (String × String))
deriving DecidableEq

/-- An outgoing request: endpoint path, form fields, file parts. -/
structure HttpRequest where
  endpoint : String
  dataFields : List (String × String)
  fileFields : List (String × String)
deriving DecidableEq

/-- Response classification inside `StabilityClient._make_request`: 200 and
202 responses are returned to the caller; any other status raises
`StabilityClientError` whose message comes from the JSON body's `message`
entry (with a generic default if that entry is missing), or from the raw
response text when the body is not JSON (with an `HTTP <code>` note when the
text is empty), and which always records the status code. -/
def interpretResponse (r : HttpResponse) : Except ClientFailure HttpResponse :=
  if r.status = 200 then .ok r
  else if r.status = 202 then .ok r
  else
    match r.jsonFields with
    | some obj =>
      .error (.apiError ((List.lookup "message" obj).getD "알 수 없는 오류") (some r.status))
    | none =>
      .error (.apiError
        (if r.body = "" then "HTTP " ++ toString r.status ++ " 오류" else r.body)
        (some r.status))

/-- Inputs accepted by `_prepare_image_file`. -/
inductive ImageInput
  | filePath (p : String)
  | rawBytes (n : Nat)
  | pilImage
  | fileLike
deriving DecidableEq

/-- `_prepare_image_file(image)`: converts a supported input to a binary
file object and raises `ValueError` otherwise — in particular when the
argument is `None`. -/
def prepare_image_file (img : Option ImageInput) : Except ClientFailure ImageInput :=
  match img with
  | some i => .ok i
  | none => .error (.valueError "지원되지 않는 이미지 형식")

/-- `if v: data[key] = v` for an optional string value (Python truthiness:
`None` and the empty string are both skipped). -/
def addOptStr (key : String) (v : Option String) (data : List (String × String)) :
    List (String × String) :=
  match v with
  | some s => if s = "" then data else data ++ [(key, s)]
  | none => data

/-- `if seed is not None: data["seed"] = seed` (note: seed 0 is sent). -/
def addSeed (v : Option Int) (data : List (String × String)) :
    List (String × String) :=
  match v with
  | some n => data ++ [("seed", toString n)]
  | none => data

/-- `StabilityClient.generate_sd35_image`: builds the form payload with the
mode-dependent checks of the source and issues at most one POST.  The result
pairs the list of HTTP requests actually issued with the outcome. -/
def generate_sd35_image (net : HttpRequest → HttpResponse)
    (prompt mode model : String) (image : Option ImageInput) (strength : Option Rat)
    (aspect_ratio : Option String) (output_format : String)
    (style_preset negative_prompt : Option String) (seed : Option Int) :
    List HttpRequest × Except ClientFailure String :=
  let data0 := [("prompt", prompt), ("mode", mode), ("model", model)]
  let checked : Except ClientFailure (List (String × String)) :=
    if mode = "image-to-image" then
      match image, strength with
      | none, _ => .error (.valueError "image-to-image 모드에서는 입력 이미지가 필요합니다")
      | some _, none => .error (.valueError "image-to-image 모드에서는 strength가 필요합니다")
      | some _, some st => .ok (data0 ++ [("strength", toString st)])
    else
      .ok (addOptStr "aspect_ratio" aspect_ratio data0)
  match checked with
  | .error e => ([], .error e)
  | .ok d1 =>
    let d2 := addOptStr "output_format" (some output_format) d1
    let d3 := addOptStr "style_preset" style_preset d2
    let d4 := addOptStr "negative_prompt" negative_prompt d3
    let d5 := addSeed seed d4
    let filesE : Except ClientFailure (List (String × String)) :=
      if mode = "image-to-image" then
        match image with
        | some img =>
          match prepare_image_file (some img) with
          | .error e => .error e
          | .ok _ => .ok [("image", "image-file")]
        | none => .ok [("none", "")]
      else .ok [("none", "")]
    match filesE with
    | .error e => ([], .error e)
    | .ok files =>
      let req : HttpRequest := ⟨"/v2beta/stable-image/generate/sd3", d5, files⟩
      match interpretResponse (net req) with
      | .ok resp => ([req], .ok resp.body)
      | .error e => ([req], .error e)

/-- `StabilityClient.style_transfer`: builds the payload, then prepares the
two required image attachments (`_prepare_image_file` raises `ValueError`
for a missing one) before issuing the single POST. -/
def style_transfer (net : HttpRequest → HttpResponse)
    (init_image style_image : Option ImageInput) (prompt : Option String)
    (style_strength composition_fidelity change_strength : Rat)
    (output_format : String) (negative_prompt : Option String) (seed : Option Int) :
    List HttpRequest × Except ClientFailure String :=
  let d0 := [("style_strength", toString style_strength),
             ("composition_fidelity", toString composition_fidelity),
             ("change_strength", toString change_strength)]
  let d1 := addOptStr "prompt" prompt d0
  let d2 := addOptStr "output_format" (some output_format) d1
  let d3 := addOptStr "negative_prompt" negative_prompt d2
  let d4 := addSeed seed d3
  match prepare_image_file init_image with
  | .error e => ([], .error e)
  | .ok _ =>
    match prepare_image_file style_image with
    | .error e => ([], .error e)
    | .ok _ =>
      let req : HttpRequest := ⟨"/v2beta/stable-image/control/style-transfer", d4,
                                [("init_image", "image-file"), ("style_image", "image-file")]⟩
      match interpretResponse (net req) with
      | .ok resp => ([req], .ok resp.body)
      | .error e => ([req], .error e)

/-! ## Parser lemmas -/

theorem parsePrompt_ok_inv {v : Option String} {s : String}
    (h : parsePrompt v = .ok s) :
    ∃ s0, v = some s0 ∧ s0.length ≤ 10000 ∧ pyStrip s0 ≠ "" ∧ s = pyStrip s0 := by
  cases v with
  | none => exact absurd h (by simp [parsePrompt])
  | some s0 =>
    simp only [parsePrompt] at h
    split_ifs at h with h1 h2 <;> simp at h
    exact ⟨s0, rfl, by omega, h2, h.symm⟩

theorem parsePrompt_idem {v : Option String} {s : String}
    (h : parsePrompt v = .ok s) : parsePrompt (some s) = .ok s := by
  obtain ⟨s0, rfl, hlen, hne, rfl⟩ := parsePrompt_ok_inv h
  have hl2 : ¬ 10000 < (pyStrip s0).length := by
    have := pyStrip_length_le s0; omega
  have hne2 : ¬ (pyStrip (pyStrip s0) = "") := by rw [pyStrip_idem]; exact hne
  simp only [parsePrompt]
  rw [if_neg hl2, if_neg hne2, pyStrip_idem]

theorem parseNegativePrompt_ok_inv {v o : Option String}
    (h : parseNegativePrompt v = .ok o) :
    o = v ∧ ∀ s, v = some s → s.length ≤ 10000 := by
  cases v with
  | none =>
    simp only [parseNegativePrompt] at h
    exact ⟨(Except.ok.inj h).symm, by simp⟩
  | some s0 =>
    simp only [parseNegativePrompt] at h
    split_ifs at h with h1 <;> simp at h
    refine ⟨h.symm, ?_⟩
    intro s hs
    cases Option.some.inj hs
    omega

theorem parseNegativePrompt_idem {v o : Option String}
    (h : parseNegativePrompt v = .ok o) : parseNegativePrompt o = .ok o := by
  obtain ⟨rfl, hlen⟩ := parseNegativePrompt_ok_inv h
  cases o with
  | none => rfl
  | some s0 =>
    simp only [parseNegativePrompt]
    rw [if_neg (by have := hlen s0 rfl; omega)]

theorem parseSeed_ok_inv {v o : Option Int} (h : parseSeed v = .ok o) :
    o = v ∧ ∀ n, v = some n → 0 ≤ n ∧ n ≤ 2147483647 := by
  cases v with
  | none =>
    simp only [parseSeed] at h
    exact ⟨(Except.ok.inj h).symm, by simp⟩
  | some n0 =>
    simp only [parseSeed] at h
    split_ifs at h with h1 <;> simp at h
    refine ⟨h.symm, ?_⟩
    intro n hn
    cases Option.some.inj hn
    exact h1

theorem parseSeed_idem {v o : Option Int} (h : parseSeed v = .ok o) :
    parseSeed o = .ok o := by
  obtain ⟨rfl, hrange⟩ := parseSeed_ok_inv h
  cases o with
  | none => rfl
  | some n0 =>
    simp only [parseSeed]
    rw [if_pos (hrange n0 rfl)]

theorem parseRangedDefault_ok_inv {name : String} {lo hi d q : Rat} {v : Option Rat}
    (h : parseRangedDefault name lo hi d v = .ok q) :
    (v = none ∧ q = d) ∨ (v = some q ∧ lo ≤ q ∧ q ≤ hi) := by
  cases v with
  | none =>
    simp only [parseRangedDefault] at h
    exact Or.inl ⟨rfl, (Except.ok.inj h).symm⟩
  | some q0 =>
    simp only [parseRangedDefault] at h
    split_ifs at h with h1 <;> simp at h
    cases h
    exact Or.inr ⟨rfl, h1⟩

theorem parseRangedDefault_idem {name : String} {lo hi d q : Rat} {v : Option Rat}
    (hd : lo ≤ d ∧ d ≤ hi)
    (h : parseRangedDefault name lo hi d v = .ok q) :
    parseRangedDefault name lo hi d (some q) = .ok q := by
  rcases parseRangedDefault_ok_inv h with ⟨_, rfl⟩ | ⟨_, hq⟩
  · simp only [parseRangedDefault]
    rw [if_pos hd]
  · simp only [parseRangedDefault]
    rw [if_pos hq]

theorem parseRangedOpt_ok_inv {name : String} {lo hi : Rat} {v o : Option Rat}
    (h : parseRangedOpt name lo hi v = .ok o) :
    o = v ∧ ∀ q, v = some q → lo ≤ q ∧ q ≤ hi := by
  cases v with
  | none =>
    simp only [parseRangedOpt] at h
    exact ⟨(Except.ok.inj h).symm, by simp⟩
  | some q0 =>
    simp only [parseRangedOpt] at h
    split_ifs at h with h1 <;> simp at h
    refine ⟨h.symm, ?_⟩
    intro q hq
    cases Option.some.inj hq
    exact h1

theorem parseRangedOpt_idem {name : String} {lo hi : Rat} {v o : Option Rat}
    (h : parseRangedOpt name lo hi v = .ok o) :
    parseRangedOpt name lo hi o = .ok o := by
  obtain ⟨rfl, hrange⟩ := parseRangedOpt_ok_inv h
  cases o with
  | none => rfl
  | some q0 =>
    simp only [parseRangedOpt]
    rw [if_pos (hrange q0 rfl)]

theorem parseBase_ok_inv {r : RawFields} {b : BaseOut} (h : parseBase r = .ok b) :
    parsePrompt r.prompt = .ok b.prompt ∧
    parseNegativePrompt r.negative_prompt = .ok b.negative_prompt ∧
    parseSeed r.seed = .ok b.seed ∧
    b.output_format = r.output_format.getD .png ∧
    b.style_preset = r.style_preset.getD .nonePreset := by
  unfold parseBase at h
  cases hp : parsePrompt r.prompt with
  | error e => rw [hp] at h; exact absurd h (by simp)
  | ok p =>
    rw [hp] at h
    cases hn : parseNegativePrompt r.negative_prompt with
    | error e => rw [hn] at h; exact absurd h (by simp)
    | ok np =>
      rw [hn] at h
      cases hs : parseSeed r.seed with
      | error e => rw [hs] at h; exact absurd h (by simp)
      | ok sd =>
        rw [hs] at h
        cases Except.ok.inj h
        exact ⟨rfl, rfl, rfl, rfl, rfl⟩

/-- Re-validating the base fields of a normalized output succeeds with the
same values. -/
theorem parseBase_again {r Y : RawFields} {b : BaseOut} (h : parseBase r = .ok b)
    (hp : Y.prompt = some b.prompt) (hn : Y.negative_prompt = b.negative_prompt)
    (hf : Y.output_format = some b.output_format)
    (hs : Y.style_preset = some b.style_preset) (hd : Y.seed = b.seed) :
    parseBase Y = .ok b := by
  obtain ⟨h1, h2, h3, h4, h5⟩ := parseBase_ok_inv h
  unfold parseBase
  rw [hp, parsePrompt_idem h1, hn, parseNegativePrompt_idem h2, hd, parseSeed_idem h3,
      hf, hs]
  cases b
  rfl

/-! ## Variant characterization lemmas -/

theorem normalizeCore_ok_inv {r Y : RawFields} (h : normalizeCore r = .ok Y) :
    ∃ b, parseBase r = .ok b ∧
      Y = { RawFields.empty with
            prompt := some b.prompt, negative_prompt := b.negative_prompt,
            output_format := some b.output_format, style_preset := some b.style_preset,
            seed := b.seed, aspect_ratio := some (r.aspect_ratio.getD .square) } := by
  unfold normalizeCore at h
  cases hb : parseBase r with
  | error e => rw [hb] at h; simp at h
  | ok b =>
    rw [hb] at h
    exact ⟨b, rfl, (Except.ok.inj h).symm⟩

theorem normalizeCore_idem {r Y : RawFields} (h : normalizeCore r = .ok Y) :
    normalizeCore Y = .ok Y := by
  obtain ⟨b, hb, rfl⟩ := normalizeCore_ok_inv h
  unfold normalizeCore
  rw [parseBase_again hb rfl rfl rfl rfl rfl]
  rfl

theorem normalizeSD35_ok_inv {r Y : RawFields} (h : normalizeSD35 r = .ok Y) :
    ∃ b st, parseBase r = .ok b ∧
      parseRangedOpt "strength" 0 1 r.strength = .ok st ∧
      ¬(r.mode.getD .textToImage = .imageToImage ∧ st = none) ∧
      Y = { RawFields.empty with
            prompt := some b.prompt, negative_prompt := b.negative_prompt,
            output_format := some b.output_format, style_preset := some b.style_preset,
            seed := b.seed, mode := some (r.mode.getD .textToImage),
            model := some (r.model.getD .large),
            aspect_ratio :=
              (match r.mode.getD .textToImage with
               | .imageToImage => none
               | .textToImage => some (r.aspect_ratio.getD .square)),
            strength := st } := by
  unfold normalizeSD35 at h
  cases hb : parseBase r with
  | error e => rw [hb] at h; simp at h
  | ok b =>
    rw [hb] at h
    cases hst : parseRangedOpt "strength" 0 1 r.strength with
    | error e => rw [hst] at h; simp at h
    | ok st =>
      rw [hst] at h
      simp only [] at h
      by_cases hcond : (r.mode.getD .textToImage = .imageToImage ∧ st = none)
      · rw [if_pos hcond] at h
        exact absurd h (by simp)
      · rw [if_neg hcond] at h
        exact ⟨b, st, rfl, rfl, hcond, (Except.ok.inj h).symm⟩

theorem normalizeSD35_idem {r Y : RawFields} (h : normalizeSD35 r = .ok Y) :
    normalizeSD35 Y = .ok Y := by
  obtain ⟨b, st, hb, hst, hcond, hYeq⟩ := normalizeSD35_ok_inv h
  have hp : Y.prompt = some b.prompt := by rw [hYeq]
  have hn : Y.negative_prompt = b.negative_prompt := by rw [hYeq]
  have hf : Y.output_format = some b.output_format := by rw [hYeq]
  have hsp : Y.style_preset = some b.style_preset := by rw [hYeq]
  have hsd : Y.seed = b.seed := by rw [hYeq]
  have hmo : Y.mode = some (r.mode.getD .textToImage) := by rw [hYeq]
  have hmdl : Y.model = some (r.model.getD .large) := by rw [hYeq]
  have hstY : Y.strength = st := by rw [hYeq]
  unfold normalizeSD35
  rw [parseBase_again hb hp hn hf hsp hsd, hstY, parseRangedOpt_idem hst]
  simp only [hmo, hmdl, Option.getD_some]
  rw [if_neg hcond]
  refine congrArg Except.ok ?_
  rw [hYeq]
  cases hm : r.mode.getD .textToImage <;> simp [hm]

theorem normalizeUltra_ok_inv {r Y : RawFields} (h : normalizeUltra r = .ok Y) :
    ∃ b st, parseBase r = .ok b ∧
      parseRangedOpt "strength" 0 1 r.strength = .ok st ∧
      Y = { RawFields.empty with
            prompt := some b.prompt, negative_prompt := b.negative_prompt,
            output_format := some b.output_format, style_preset := some b.style_preset,
            seed := b.seed, aspect_ratio := some (r.aspect_ratio.getD .square),
            strength := st } := by
  unfold normalizeUltra at h
  cases hb : parseBase r with
  | error e => rw [hb] at h; simp at h
  | ok b =>
    rw [hb] at h
    cases hst : parseRangedOpt "strength" 0 1 r.strength with
    | error e => rw [hst] at h; simp at h
    | ok st =>
      rw [hst] at h
      exact ⟨b, st, rfl, rfl, (Except.ok.inj h).symm⟩

theorem normalizeUltra_idem {r Y : RawFields} (h : normalizeUltra r = .ok Y) :
    normalizeUltra Y = .ok Y := by
  obtain ⟨b, st, hb, hst, hYeq⟩ := normalizeUltra_ok_inv h
  have hstY : Y.strength = st := by rw [hYeq]
  unfold normalizeUltra
  rw [parseBase_again hb (by rw [hYeq]) (by rw [hYeq]) (by rw [hYeq]) (by rw [hYeq])
        (by rw [hYeq]),
      hstY, parseRangedOpt_idem hst]
  refine congrArg Except.ok ?_
  rw [hYeq]
  rfl

theorem normalizeSketch_ok_inv {r Y : RawFields} (h : normalizeSketch r = .ok Y) :
    ∃ b cs, parseBase r = .ok b ∧
      parseRangedDefault "control_strength" 0 1 (7/10) r.control_strength = .ok cs ∧
      Y = { RawFields.empty with
            prompt := some b.prompt, negative_prompt := b.negative_prompt,
            output_format := some b.output_format, style_preset := some b.style_preset,
            seed := b.seed, control_strength := some cs } := by
  unfold normalizeSketch at h
  cases hb : parseBase r with
  | error e => rw [hb] at h; simp at h
  | ok b =>
    rw [hb] at h
    cases hcs : parseRangedDefault "control_strength" 0 1 (7/10) r.control_strength with
    | error e => rw [hcs] at h; simp at h
    | ok cs =>
      rw [hcs] at h
      exact ⟨b, cs, rfl, rfl, (Except.ok.inj h).symm⟩

theorem normalizeSketch_idem {r Y : RawFields} (h : normalizeSketch r = .ok Y) :
    normalizeSketch Y = .ok Y := by
  obtain ⟨b, cs, hb, hcs, hYeq⟩ := normalizeSketch_ok_inv h
  have hcsY : Y.control_strength = some cs := by rw [hYeq]
  unfold normalizeSketch
  rw [parseBase_again hb (by rw [hYeq]) (by rw [hYeq]) (by rw [hYeq]) (by rw [hYeq])
        (by rw [hYeq]),
      hcsY, parseRangedDefault_idem (by norm_num) hcs]
  refine congrArg Except.ok ?_
  rw [hYeq]

theorem normalizeStructure_ok_inv {r Y : RawFields} (h : normalizeStructure r = .ok Y) :
    ∃ b cs, parseBase r = .ok b ∧
      parseRangedDefault "control_strength" 0 1 (7/10) r.control_strength = .ok cs ∧
      Y = { RawFields.empty with
            prompt := some b.prompt, negative_prompt := b.negative_prompt,
            output_format := some b.output_format, style_preset := some b.style_preset,
            seed := b.seed, control_strength := some cs } := by
  unfold normalizeStructure at h
  cases hb : parseBase r with
  | error e => rw [hb] at h; simp at h
  | ok b =>
    rw [hb] at h
    cases hcs : parseRangedDefault "control_strength" 0 1 (7/10) r.control_strength with
    | error e => rw [hcs] at h; simp at h
    | ok cs =>
      rw [hcs] at h
      exact ⟨b, cs, rfl, rfl, (Except.ok.inj h).symm⟩

theorem normalizeStructure_idem {r Y : RawFields} (h : normalizeStructure r = .ok Y) :
    normalizeStructure Y = .ok Y := by
  obtain ⟨b, cs, hb, hcs, hYeq⟩ := normalizeStructure_ok_inv h
  have hcsY : Y.control_strength = some cs := by rw [hYeq]
  unfold normalizeStructure
  rw [parseBase_again hb (by rw [hYeq]) (by rw [hYeq]) (by rw [hYeq]) (by rw [hYeq])
        (by rw [hYeq]),
      hcsY, parseRangedDefault_idem (by norm_num) hcs]
  refine congrArg Except.ok ?_
  rw [hYeq]

theorem normalizeStyleGuide_ok_inv {r Y : RawFields} (h : normalizeStyleGuide r = .ok Y) :
    ∃ b cs fid, parseBase r = .ok b ∧
      parseRangedDefault "control_strength" 0 1 (7/10) r.control_strength = .ok cs ∧
      parseRangedDefault "fidelity" 0 1 (1/2) r.fidelity = .ok fid ∧
      Y = { RawFields.empty with
            prompt := some b.prompt, negative_prompt := b.negative_prompt,
            output_format := some b.output_format, style_preset := some b.style_preset,
            seed := b.seed, control_strength := some cs, fidelity := some fid } := by
  unfold normalizeStyleGuide at h
  cases hb : parseBase r with
  | error e => rw [hb] at h; simp at h
  | ok b =>
    rw [hb] at h
    cases hcs : parseRangedDefault "control_strength" 0 1 (7/10) r.control_strength with
    | error e => rw [hcs] at h; simp at h
    | ok cs =>
      rw [hcs] at h
      cases hfid : parseRangedDefault "fidelity" 0 1 (1/2) r.fidelity with
      | error e => rw [hfid] at h; simp at h
      | ok fid =>
        rw [hfid] at h
        exact ⟨b, cs, fid, rfl, rfl, rfl, (Except.ok.inj h).symm⟩

theorem normalizeStyleGuide_idem {r Y : RawFields} (h : normalizeStyleGuide r = .ok Y) :
    normalizeStyleGuide Y = .ok Y := by
  obtain ⟨b, cs, fid, hb, hcs, hfid, hYeq⟩ := normalizeStyleGuide_ok_inv h
  have hcsY : Y.control_strength = some cs := by rw [hYeq]
  have hfidY : Y.fidelity = some fid := by rw [hYeq]
  unfold normalizeStyleGuide
  rw [parseBase_again hb (by rw [hYeq]) (by rw [hYeq]) (by rw [hYeq]) (by rw [hYeq])
        (by rw [hYeq]),
      hcsY, parseRangedDefault_idem (by norm_num) hcs,
      hfidY, parseRangedDefault_idem (by norm_num) hfid]
  refine congrArg Except.ok ?_
  rw [hYeq]

theorem normalizeStyleTransfer_ok_inv {r Y : RawFields}
    (h : normalizeStyleTransfer r = .ok Y) :
    ∃ b ss cf ch, parseBase r = .ok b ∧
      parseRangedDefault "style_strength" 0 1 1 r.style_strength = .ok ss ∧
      parseRangedDefault "composition_fidelity" 0 1 (9/10) r.composition_fidelity = .ok cf ∧
      parseRangedDefault "change_strength" (1/10) 1 (9/10) r.change_strength = .ok ch ∧
      Y = { RawFields.empty with
            prompt := some b.prompt, negative_prompt := b.negative_prompt,
            output_format := some b.output_format, style_preset := some b.style_preset,
            seed := b.seed, style_strength := some ss,
            composition_fidelity := some cf, change_strength := some ch } := by
  unfold normalizeStyleTransfer at h
  cases hb : parseBase r with
  | error e => rw [hb] at h; simp at h
  | ok b =>
    rw [hb] at h
    cases hss : parseRangedDefault "style_strength" 0 1 1 r.style_strength with
    | error e => rw [hss] at h; simp at h
    | ok ss =>
      rw [hss] at h
      cases hcf : parseRangedDefault "composition_fidelity" 0 1 (9/10) r.composition_fidelity with
      | error e => rw [hcf] at h; simp at h
      | ok cf =>
        rw [hcf] at h
        cases hch : parseRangedDefault "change_strength" (1/10) 1 (9/10) r.change_strength with
        | error e => rw [hch] at h; simp at h
        | ok ch =>
          rw [hch] at h
          exact ⟨b, ss, cf, ch, rfl, rfl, rfl, rfl, (Except.ok.inj h).symm⟩

theorem normalizeStyleTransfer_idem {r Y : RawFields}
    (h : normalizeStyleTransfer r = .ok Y) :
    normalizeStyleTransfer Y = .ok Y := by
  obtain ⟨b, ss, cf, ch, hb, hss, hcf, hch, hYeq⟩ := normalizeStyleTransfer_ok_inv h
  have hssY : Y.style_strength = some ss := by rw [hYeq]
  have hcfY : Y.composition_fidelity = some cf := by rw [hYeq]
  have hchY : Y.change_strength = some ch := by rw [hYeq]
  unfold normalizeStyleTransfer
  rw [parseBase_again hb (by rw [hYeq]) (by rw [hYeq]) (by rw [hYeq]) (by rw [hYeq])
        (by rw [hYeq]),
      hssY, parseRangedDefault_idem (by norm_num) hss,
      hcfY, parseRangedDefault_idem (by norm_num) hcf,
      hchY, parseRangedDefault_idem (by norm_num) hch]
  refine congrArg Except.ok ?_
  rw [hYeq]

/-! ## Error classification and success characterization -/

theorem parsePrompt_err_inv {v : Option String} {e : NormError}
    (h : parsePrompt v = .error e) : ∃ m, e = .validation m := by
  cases v with
  | none =>
    simp only [parsePrompt] at h
    exact ⟨_, (Except.error.inj h).symm⟩
  | some s =>
    simp only [parsePrompt] at h
    split_ifs at h with h1 h2
    · exact ⟨_, (Except.error.inj h).symm⟩
    · exact ⟨_, (Except.error.inj h).symm⟩

theorem parseNegativePrompt_err_inv {v : Option String} {e : NormError}
    (h : parseNegativePrompt v = .error e) : ∃ m, e = .validation m := by
  cases v with
  | none => simp [parseNegativePrompt] at h
  | some s =>
    simp only [parseNegativePrompt] at h
    split_ifs at h with h1
    exact ⟨_, (Except.error.inj h).symm⟩

theorem parseSeed_err_inv {v : Option Int} {e : NormError}
    (h : parseSeed v = .error e) : ∃ m, e = .validation m := by
  cases v with
  | none => simp [parseSeed] at h
  | some n =>
    simp only [parseSeed] at h
    split_ifs at h with h1
    exact ⟨_, (Except.error.inj h).symm⟩

theorem parseRangedDefault_err_inv {name : String} {lo hi d : Rat} {v : Option Rat}
    {e : NormError} (h : parseRangedDefault name lo hi d v = .error e) :
    ∃ m, e = .validation m := by
  cases v with
  | none => simp [parseRangedDefault] at h
  | some q =>
    simp only [parseRangedDefault] at h
    split_ifs at h with h1
    exact ⟨_, (Except.error.inj h).symm⟩

theorem parseRangedOpt_err_inv {name : String} {lo hi : Rat} {v : Option Rat}
    {e : NormError} (h : parseRangedOpt name lo hi v = .error e) :
    ∃ m, e = .validation m := by
  cases v with
  | none => simp [parseRangedOpt] at h
  | some q =>
    simp only [parseRangedOpt] at h
    split_ifs at h with h1
    exact ⟨_, (Except.error.inj h).symm⟩

theorem parseBase_err_inv {r : RawFields} {e : NormError}
    (h : parseBase r = .error e) : ∃ m, e = .validation m := by
  unfold parseBase at h
  cases hp : parsePrompt r.prompt with
  | error ep =>
    rw [hp] at h
    cases Except.error.inj h
    exact parsePrompt_err_inv hp
  | ok p =>
    rw [hp] at h
    cases hn : parseNegativePrompt r.negative_prompt with
    | error en =>
      rw [hn] at h
      cases Except.error.inj h
      exact parseNegativePrompt_err_inv hn
    | ok np =>
      rw [hn] at h
      cases hs : parseSeed r.seed with
      | error es =>
        rw [hs] at h
        cases Except.error.inj h
        exact parseSeed_err_inv hs
      | ok sd =>
        rw [hs] at h
        simp at h

/-- A normalization outcome that did not raise. -/
def normSucceeds (x : Except NormError RawFields) : Prop := ∃ Y, x = .ok Y

theorem normalizeCore_err_inv {r : RawFields} {e : NormError}
    (h : normalizeCore r = .error e) : ∃ m, e = .validation m := by
  unfold normalizeCore at h
  cases hb : parseBase r with
  | error eb =>
    rw [hb] at h
    cases Except.error.inj h
    exact parseBase_err_inv hb
  | ok b => rw [hb] at h; simp at h

theorem normalizeSD35_err_inv {r : RawFields} {e : NormError}
    (h : normalizeSD35 r = .error e) : ∃ m, e = .validation m := by
  unfold normalizeSD35 at h
  cases hb : parseBase r with
  | error eb =>
    rw [hb] at h
    cases Except.error.inj h
    exact parseBase_err_inv hb
  | ok b =>
    rw [hb] at h
    cases hst : parseRangedOpt "strength" 0 1 r.strength with
    | error es =>
      rw [hst] at h
      cases Except.error.inj h
      exact parseRangedOpt_err_inv hst
    | ok st =>
      rw [hst] at h
      simp only [] at h
      split_ifs at h with hcond
      exact ⟨_, (Except.error.inj h).symm⟩

theorem normalizeUltra_err_inv {r : RawFields} {e : NormError}
    (h : normalizeUltra r = .error e) : ∃ m, e = .validation m := by
  unfold normalizeUltra at h
  cases hb : parseBase r with
  | error eb =>
    rw [hb] at h
    cases Except.error.inj h
    exact parseBase_err_inv hb
  | ok b =>
    rw [hb] at h
    cases hst : parseRangedOpt "strength" 0 1 r.strength with
    | error es =>
      rw [hst] at h
      cases Except.error.inj h
      exact parseRangedOpt_err_inv hst
    | ok st => rw [hst] at h; simp at h

theorem normalizeSketch_err_inv {r : RawFields} {e : NormError}
    (h : normalizeSketch r = .error e) : ∃ m, e = .validation m := by
  unfold normalizeSketch at h
  cases hb : parseBase r with
  | error eb =>
    rw [hb] at h
    cases Except.error.inj h
    exact parseBase_err_inv hb
  | ok b =>
    rw [hb] at h
    cases hcs : parseRangedDefault "control_strength" 0 1 (7/10) r.control_strength with
    | error ec =>
      rw [hcs] at h
      cases Except.error.inj h
      exact parseRangedDefault_err_inv hcs
    | ok cs => rw [hcs] at h; simp at h

theorem normalizeStructure_err_inv {r : RawFields} {e : NormError}
    (h : normalizeStructure r = .error e) : ∃ m, e = .validation m := by
  unfold normalizeStructure at h
  cases hb : parseBase r with
  | error eb =>
    rw [hb] at h
    cases Except.error.inj h
    exact parseBase_err_inv hb
  | ok b =>
    rw [hb] at h
    cases hcs : parseRangedDefault "control_strength" 0 1 (7/10) r.control_strength with
    | error ec =>
      rw [hcs] at h
      cases Except.error.inj h
      exact parseRangedDefault_err_inv hcs
    | ok cs => rw [hcs] at h; simp at h

theorem normalizeStyleGuide_err_inv {r : RawFields} {e : NormError}
    (h : normalizeStyleGuide r = .error e) : ∃ m, e = .validation m := by
  unfold normalizeStyleGuide at h
  cases hb : parseBase r with
  | error eb =>
    rw [hb] at h
    cases Except.error.inj h
    exact parseBase_err_inv hb
  | ok b =>
    rw [hb] at h
    cases hcs : parseRangedDefault "control_strength" 0 1 (7/10) r.control_strength with
    | error ec =>
      rw [hcs] at h
      cases Except.error.inj h
      exact parseRangedDefault_err_inv hcs
    | ok cs =>
      rw [hcs] at h
      cases hfid : parseRangedDefault "fidelity" 0 1 (1/2) r.fidelity with
      | error ef =>
        rw [hfid] at h
        cases Except.error.inj h
        exact parseRangedDefault_err_inv hfid
      | ok fid => rw [hfid] at h; simp at h

theorem normalizeStyleTransfer_err_inv {r : RawFields} {e : NormError}
    (h : normalizeStyleTransfer r = .error e) : ∃ m, e = .validation m := by
  unfold normalizeStyleTransfer at h
  cases hb : parseBase r with
  | error eb =>
    rw [hb] at h
    cases Except.error.inj h
    exact parseBase_err_inv hb
  | ok b =>
    rw [hb] at h
    cases hss : parseRangedDefault "style_strength" 0 1 1 r.style_strength with
    | error e1 =>
      rw [hss] at h
      cases Except.error.inj h
      exact parseRangedDefault_err_inv hss
    | ok ss =>
      rw [hss] at h
      cases hcf : parseRangedDefault "composition_fidelity" 0 1 (9/10) r.composition_fidelity with
      | error e2 =>
        rw [hcf] at h
        cases Except.error.inj h
        exact parseRangedDefault_err_inv hcf
      | ok cf =>
        rw [hcf] at h
        cases hch : parseRangedDefault "change_strength" (1/10) 1 (9/10) r.change_strength with
        | error e3 =>
          rw [hch] at h
          cases Except.error.inj h
          exact parseRangedDefault_err_inv hch
        | ok ch => rw [hch] at h; simp at h

theorem parseRangedDefault_in {name : String} {lo hi d q : Rat}
    (h1 : lo ≤ q) (h2 : q ≤ hi) :
    parseRangedDefault name lo hi d (some q) = .ok q := by
  simp only [parseRangedDefault]
  rw [if_pos ⟨h1, h2⟩]

theorem parseRangedDefault_out {name : String} {lo hi d q : Rat}
    (h : q < lo ∨ hi < q) :
    parseRangedDefault name lo hi d (some q) =
      .error (.validation (name ++ ": out of range")) := by
  simp only [parseRangedDefault]
  rw [if_neg]
  rintro ⟨ha, hb⟩
  rcases h with h | h
  · exact absurd ha (not_le.mpr h)
  · exact absurd hb (not_le.mpr h)

theorem parseRangedOpt_in {name : String} {lo hi q : Rat}
    (h1 : lo ≤ q) (h2 : q ≤ hi) :
    parseRangedOpt name lo hi (some q) = .ok (some q) := by
  simp only [parseRangedOpt]
  rw [if_pos ⟨h1, h2⟩]

theorem parseRangedOpt_out {name : String} {lo hi q : Rat}
    (h : q < lo ∨ hi < q) :
    parseRangedOpt name lo hi (some q) =
      .error (.validation (name ++ ": out of range")) := by
  simp only [parseRangedOpt]
  rw [if_neg]
  rintro ⟨ha, hb⟩
  rcases h with h | h
  · exact absurd ha (not_le.mpr h)
  · exact absurd hb (not_le.mpr h)

theorem normalizeCore_succeeds_iff (r : RawFields) :
    normSucceeds (normalizeCore r) ↔ (∃ b, parseBase r = .ok b) := by
  constructor
  · rintro ⟨Y, h⟩
    obtain ⟨b, hb, _⟩ := normalizeCore_ok_inv h
    exact ⟨b, hb⟩
  · rintro ⟨b, hb⟩
    exact ⟨_, by unfold normalizeCore; rw [hb]⟩

theorem normalizeSD35_succeeds_iff (r : RawFields) :
    normSucceeds (normalizeSD35 r) ↔
      (∃ b, parseBase r = .ok b) ∧
      (∃ st, parseRangedOpt "strength" 0 1 r.strength = .ok st ∧
        ¬(r.mode.getD .textToImage = .imageToImage ∧ st = none)) := by
  constructor
  · rintro ⟨Y, h⟩
    obtain ⟨b, st, hb, hst, hcond, _⟩ := normalizeSD35_ok_inv h
    exact ⟨⟨b, hb⟩, ⟨st, hst, hcond⟩⟩
  · rintro ⟨⟨b, hb⟩, ⟨st, hst, hcond⟩⟩
    refine ⟨{ RawFields.empty with
              prompt := some b.prompt, negative_prompt := b.negative_prompt,
              output_format := some b.output_format, style_preset := some b.style_preset,
              seed := b.seed, mode := some (r.mode.getD .textToImage),
              model := some (r.model.getD .large),
              aspect_ratio :=
                (match r.mode.getD .textToImage with
                 | .imageToImage => none
                 | .textToImage => some (r.aspect_ratio.getD .square)),
              strength := st }, ?_⟩
    unfold normalizeSD35
    rw [hb, hst]
    simp only []
    rw [if_neg hcond]

theorem normalizeUltra_succeeds_iff (r : RawFields) :
    normSucceeds (normalizeUltra r) ↔
      (∃ b, parseBase r = .ok b) ∧
      (∃ st, parseRangedOpt "strength" 0 1 r.strength = .ok st) := by
  constructor
  · rintro ⟨Y, h⟩
    obtain ⟨b, st, hb, hst, _⟩ := normalizeUltra_ok_inv h
    exact ⟨⟨b, hb⟩, ⟨st, hst⟩⟩
  · rintro ⟨⟨b, hb⟩, ⟨st, hst⟩⟩
    exact ⟨_, by unfold normalizeUltra; rw [hb, hst]⟩

theorem normalizeSketch_succeeds_iff (r : RawFields) :
    normSucceeds (normalizeSketch r) ↔
      (∃ b, parseBase r = .ok b) ∧
      (∃ cs, parseRangedDefault "control_strength" 0 1 (7/10) r.control_strength = .ok cs) := by
  constructor
  · rintro ⟨Y, h⟩
    obtain ⟨b, cs, hb, hcs, _⟩ := normalizeSketch_ok_inv h
    exact ⟨⟨b, hb⟩, ⟨cs, hcs⟩⟩
  · rintro ⟨⟨b, hb⟩, ⟨cs, hcs⟩⟩
    exact ⟨_, by unfold normalizeSketch; rw [hb, hcs]⟩

theorem normalizeStructure_succeeds_iff (r : RawFields) :
    normSucceeds (normalizeStructure r) ↔
      (∃ b, parseBase r = .ok b) ∧
      (∃ cs, parseRangedDefault "control_strength" 0 1 (7/10) r.control_strength = .ok cs) := by
  constructor
  · rintro ⟨Y, h⟩
    obtain ⟨b, cs, hb, hcs, _⟩ := normalizeStructure_ok_inv h
    exact ⟨⟨b, hb⟩, ⟨cs, hcs⟩⟩
  · rintro ⟨⟨b, hb⟩, ⟨cs, hcs⟩⟩
    exact ⟨_, by unfold normalizeStructure; rw [hb, hcs]⟩

theorem normalizeStyleGuide_succeeds_iff (r : RawFields) :
    normSucceeds (normalizeStyleGuide r) ↔
      (∃ b, parseBase r = .ok b) ∧
      (∃ cs, parseRangedDefault "control_strength" 0 1 (7/10) r.control_strength = .ok cs) ∧
      (∃ fid, parseRangedDefault "fidelity" 0 1 (1/2) r.fidelity = .ok fid) := by
  constructor
  · rintro ⟨Y, h⟩
    obtain ⟨b, cs, fid, hb, hcs, hfid, _⟩ := normalizeStyleGuide_ok_inv h
    exact ⟨⟨b, hb⟩, ⟨cs, hcs⟩, ⟨fid, hfid⟩⟩
  · rintro ⟨⟨b, hb⟩, ⟨cs, hcs⟩, ⟨fid, hfid⟩⟩
    exact ⟨_, by unfold normalizeStyleGuide; rw [hb, hcs, hfid]⟩

theorem normalizeStyleTransfer_succeeds_iff (r : RawFields) :
    normSucceeds (normalizeStyleTransfer r) ↔
      (∃ b, parseBase r = .ok b) ∧
      (∃ ss, parseRangedDefault "style_strength" 0 1 1 r.style_strength = .ok ss) ∧
      (∃ cf, parseRangedDefault "composition_fidelity" 0 1 (9/10) r.composition_fidelity = .ok cf) ∧
      (∃ ch, parseRangedDefault "change_strength" (1/10) 1 (9/10) r.change_strength = .ok ch) := by
  constructor
  · rintro ⟨Y, h⟩
    obtain ⟨b, ss, cf, ch, hb, hss, hcf, hch, _⟩ := normalizeStyleTransfer_ok_inv h
    exact ⟨⟨b, hb⟩, ⟨ss, hss⟩, ⟨cf, hcf⟩, ⟨ch, hch⟩⟩
  · rintro ⟨⟨b, hb⟩, ⟨ss, hss⟩, ⟨cf, hcf⟩, ⟨ch, hch⟩⟩
    exact ⟨_, by unfold normalizeStyleTransfer; rw [hb, hss, hcf, hch]⟩

/-! ## Small bridging lemmas for the claims -/

theorem parsePrompt_ws {s : String} (hws : s.data.all isPyWs) :
    ∃ msg, parsePrompt (some s) = .error (.validation msg) := by
  have hstrip : pyStrip s = "" := congrArg String.mk (stripList_of_all_ws s.data hws)
  simp only [parsePrompt]
  by_cases hl : 10000 < s.length
  · rw [if_pos hl]
    exact ⟨_, rfl⟩
  · rw [if_neg hl, if_pos hstrip]
    exact ⟨_, rfl⟩

theorem parseBase_prompt_err {r : RawFields} {e : NormError}
    (h : parsePrompt r.prompt = .error e) : parseBase r = .error e := by
  unfold parseBase
  rw [h]

theorem normalizeCore_base_err {r : RawFields} {e : NormError}
    (h : parseBase r = .error e) : normalizeCore r = .error e := by
  unfold normalizeCore
  rw [h]

theorem normalizeSD35_base_err {r : RawFields} {e : NormError}
    (h : parseBase r = .error e) : normalizeSD35 r = .error e := by
  unfold normalizeSD35
  rw [h]

theorem normalizeUltra_base_err {r : RawFields} {e : NormError}
    (h : parseBase r = .error e) : normalizeUltra r = .error e := by
  unfold normalizeUltra
  rw [h]

theorem normalizeSketch_base_err {r : RawFields} {e : NormError}
    (h : parseBase r = .error e) : normalizeSketch r = .error e := by
  unfold normalizeSketch
  rw [h]

theorem normalizeStructure_base_err {r : RawFields} {e : NormError}
    (h : parseBase r = .error e) : normalizeStructure r = .error e := by
  unfold normalizeStructure
  rw [h]

theorem normalizeStyleGuide_base_err {r : RawFields} {e : NormError}
    (h : parseBase r = .error e) : normalizeStyleGuide r = .error e := by
  unfold normalizeStyleGuide
  rw [h]

theorem normalizeStyleTransfer_base_err {r : RawFields} {e : NormError}
    (h : parseBase r = .error e) : normalizeStyleTransfer r = .error e := by
  unfold normalizeStyleTransfer
  rw [h]

/-! ## Claims -/

/-- C4: for every supported variant tag and every raw input on which
`validate_request_for_model` succeeds, applying it again to its own output
succeeds and returns the same output — normalization is idempotent. -/
theorem claim_C4_normalize_idempotent (mt : String) (hmt : mt ∈ supportedModelTypes)
    (r Y : RawFields) (h : validate_request_for_model mt r = .ok Y) :
    validate_request_for_model mt Y = .ok Y := by
  simp only [supportedModelTypes, List.mem_cons, List.not_mem_nil, or_false] at hmt
  rcases hmt with rfl | rfl | rfl | rfl | rfl | rfl | rfl
  · exact normalizeCore_idem h
  · exact normalizeSD35_idem h
  · exact normalizeUltra_idem h
  · exact normalizeSketch_idem h
  · exact normalizeStructure_idem h
  · exact normalizeStyleGuide_idem h
  · exact normalizeStyleTransfer_idem h

/-- Witness for C4 at the concrete Core request `{prompt: "hi"}`. -/
theorem claim_C4_normalize_idempotent_witness :
    validate_request_for_model "core"
      { RawFields.empty with
        prompt := some "hi",
        output_format := some OutputFormat.png,
        style_preset := some StylePreset.nonePreset,
        aspect_ratio := some AspectRatio.square } =
      .ok { RawFields.empty with
            prompt := some "hi",
            output_format := some OutputFormat.png,
            style_preset := some StylePreset.nonePreset,
            aspect_ratio := some AspectRatio.square } :=
  claim_C4_normalize_idempotent "core" (by decide)
    { RawFields.empty with prompt := some "hi" } _ (by rfl)

/-- C7: a model-type tag outside the seven supported ones makes
`validate_request_for_model` fail with the distinct "unsupported model type"
error (a plain `ValueError` in the source), never with a validation error. -/
theorem claim_C7_unsupported_model_type (mt : String)
    (hmt : mt ∉ supportedModelTypes) (r : RawFields) :
    validate_request_for_model mt r = .error (.unsupported mt) ∧
    ∀ msg, validate_request_for_model mt r ≠ .error (.validation msg) := by
  simp only [supportedModelTypes, List.mem_cons, List.not_mem_nil, or_false,
    not_or] at hmt
  obtain ⟨h1, h2, h3, h4, h5, h6, h7⟩ := hmt
  unfold validate_request_for_model
  rw [if_neg h1, if_neg h2, if_neg h3, if_neg h4, if_neg h5, if_neg h6, if_neg h7]
  refine ⟨rfl, ?_⟩
  intro msg hcontra
  exact NormError.noConfusion (Except.error.inj hcontra)

/-- Witness for C7 at the concrete unknown tag `"bogus"`. -/
theorem claim_C7_unsupported_model_type_witness :
    validate_request_for_model "bogus" RawFields.empty =
      .error (.unsupported "bogus") :=
  (claim_C7_unsupported_model_type "bogus" (by decide) RawFields.empty).1

/-- C10: keys that are not fields of the selected schema are silently
ignored: the result of normalization does not depend on them, and they never
appear in the normalized output. -/
theorem claim_C10_unknown_fields_ignored (mt : String)
    (hmt : mt ∈ supportedModelTypes) (r : RawFields) (e : List String) :
    validate_request_for_model mt { r with extras := e } =
      validate_request_for_model mt { r with extras := [] } ∧
    (∀ Y, validate_request_for_model mt { r with extras := e } = .ok Y →
      Y.extras = []) := by
  simp only [supportedModelTypes, List.mem_cons, List.not_mem_nil, or_false] at hmt
  constructor
  · rcases hmt with rfl | rfl | rfl | rfl | rfl | rfl | rfl <;> rfl
  · intro Y h
    rcases hmt with rfl | rfl | rfl | rfl | rfl | rfl | rfl
    · obtain ⟨b, _, hYeq⟩ := normalizeCore_ok_inv h
      rw [hYeq]
      rfl
    · obtain ⟨b, st, _, _, _, hYeq⟩ := normalizeSD35_ok_inv h
      rw [hYeq]
      rfl
    · obtain ⟨b, st, _, _, hYeq⟩ := normalizeUltra_ok_inv h
      rw [hYeq]
      rfl
    · obtain ⟨b, cs, _, _, hYeq⟩ := normalizeSketch_ok_inv h
      rw [hYeq]
      rfl
    · obtain ⟨b, cs, _, _, hYeq⟩ := normalizeStructure_ok_inv h
      rw [hYeq]
      rfl
    · obtain ⟨b, cs, fid, _, _, _, hYeq⟩ := normalizeStyleGuide_ok_inv h
      rw [hYeq]
      rfl
    · obtain ⟨b, ss, cf, ch, _, _, _, _, hYeq⟩ := normalizeStyleTransfer_ok_inv h
      rw [hYeq]
      rfl

/-- Witness for C10: an unknown key alongside a valid Core request. -/
theorem claim_C10_unknown_fields_ignored_witness :
    validate_request_for_model "core"
        { RawFields.empty with prompt := some "hi", extras := ["mystery_key"] } =
      validate_request_for_model "core"
        { RawFields.empty with prompt := some "hi", extras := [] } :=
  (claim_C10_unknown_fields_ignored "core" (by decide)
    { RawFields.empty with prompt := some "hi" } ["mystery_key"]).1

/-- C9: for every supported variant (all of which require a prompt), a
prompt consisting only of whitespace — the empty string included — makes
normalization fail with a validation error; on success the normalized
prompt is the input prompt stripped of surrounding whitespace and is
non-empty. -/
theorem claim_C9_prompt_whitespace (mt : String) (hmt : mt ∈ supportedModelTypes)
    (r : RawFields) :
    (∀ s, r.prompt = some s → s.data.all isPyWs →
      ∃ msg, validate_request_for_model mt r = .error (.validation msg)) ∧
    (∀ Y, validate_request_for_model mt r = .ok Y →
      ∃ s, r.prompt = some s ∧ Y.prompt = some (pyStrip s) ∧ pyStrip s ≠ "") := by
  simp only [supportedModelTypes, List.mem_cons, List.not_mem_nil, or_false] at hmt
  constructor
  · intro s hs hws
    obtain ⟨msg, hmsg⟩ := parsePrompt_ws hws
    have hperr : parsePrompt r.prompt = .error (.validation msg) := by
      rw [hs]; exact hmsg
    have hbase := parseBase_prompt_err hperr
    rcases hmt with rfl | rfl | rfl | rfl | rfl | rfl | rfl
    · exact ⟨msg, normalizeCore_base_err hbase⟩
    · exact ⟨msg, normalizeSD35_base_err hbase⟩
    · exact ⟨msg, normalizeUltra_base_err hbase⟩
    · exact ⟨msg, normalizeSketch_base_err hbase⟩
    · exact ⟨msg, normalizeStructure_base_err hbase⟩
    · exact ⟨msg, normalizeStyleGuide_base_err hbase⟩
    · exact ⟨msg, normalizeStyleTransfer_base_err hbase⟩
  · intro Y h
    have main : ∀ b : BaseOut, parseBase r = .ok b → Y.prompt = some b.prompt →
        ∃ s, r.prompt = some s ∧ Y.prompt = some (pyStrip s) ∧ pyStrip s ≠ "" := by
      intro b hb hYp
      obtain ⟨hp, _⟩ := parseBase_ok_inv hb
      obtain ⟨s0, hs0, _, hne, hval⟩ := parsePrompt_ok_inv hp
      refine ⟨s0, hs0, ?_, hne⟩
      rw [hYp, hval]
    rcases hmt with rfl | rfl | rfl | rfl | rfl | rfl | rfl
    · obtain ⟨b, hb, hYeq⟩ := normalizeCore_ok_inv h
      exact main b hb (by rw [hYeq])
    · obtain ⟨b, st, hb, _, _, hYeq⟩ := normalizeSD35_ok_inv h
      exact main b hb (by rw [hYeq])
    · obtain ⟨b, st, hb, _, hYeq⟩ := normalizeUltra_ok_inv h
      exact main b hb (by rw [hYeq])
    · obtain ⟨b, cs, hb, _, hYeq⟩ := normalizeSketch_ok_inv h
      exact main b hb (by rw [hYeq])
    · obtain ⟨b, cs, hb, _, hYeq⟩ := normalizeStructure_ok_inv h
      exact main b hb (by rw [hYeq])
    · obtain ⟨b, cs, fid, hb, _, _, hYeq⟩ := normalizeStyleGuide_ok_inv h
      exact main b hb (by rw [hYeq])
    · obtain ⟨b, ss, cf, ch, hb, _, _, _, hYeq⟩ := normalizeStyleTransfer_ok_inv h
      exact main b hb (by rw [hYeq])

/-- Witness for C9: a whitespace-only prompt for the Core variant. -/
theorem claim_C9_prompt_whitespace_witness :
    ∃ msg, validate_request_for_model "core"
        { RawFields.empty with prompt := some "   " } =
      .error (.validation msg) :=
  (claim_C9_prompt_whitespace "core" (by decide)
    { RawFields.empty with prompt := some "   " }).1 "   " rfl (by decide)

/-- C2 counterexample: for the Core variant with `style_preset` unset, the
normalized output *contains* `style_preset` resolved to the empty-string
preset — `.dict(exclude_none=True)` drops only `None`, not empty strings —
contradicting the claim that empty-equivalent fields are absent. -/
theorem claim_C2_counterexample :
    validate_request_for_model "core" { RawFields.empty with prompt := some "hi" } =
      .ok { RawFields.empty with
            prompt := some "hi",
            output_format := some OutputFormat.png,
            style_preset := some StylePreset.nonePreset,
            aspect_ratio := some AspectRatio.square } ∧
    StylePreset.value StylePreset.nonePreset = "" :=
  ⟨rfl, rfl⟩

/-- C2 amended: the normalized output drops exactly the fields whose
resolved value is `None`: `negative_prompt` and `seed` appear in the output
iff they were supplied, while `style_preset` is always present — resolving
to the empty-string preset when unset — because the empty string is not
`None`. -/
theorem claim_C2_amended (mt : String) (hmt : mt ∈ supportedModelTypes)
    (r Y : RawFields) (h : validate_request_for_model mt r = .ok Y) :
    Y.negative_prompt = r.negative_prompt ∧ Y.seed = r.seed ∧
    Y.style_preset = some (r.style_preset.getD .nonePreset) := by
  simp only [supportedModelTypes, List.mem_cons, List.not_mem_nil, or_false] at hmt
  have main : ∀ b : BaseOut, parseBase r = .ok b →
      Y.negative_prompt = b.negative_prompt → Y.seed = b.seed →
      Y.style_preset = some b.style_preset →
      Y.negative_prompt = r.negative_prompt ∧ Y.seed = r.seed ∧
      Y.style_preset = some (r.style_preset.getD .nonePreset) := by
    intro b hb h1 h2 h3
    obtain ⟨_, hn, hs, _, hsp⟩ := parseBase_ok_inv hb
    obtain ⟨hnv, _⟩ := parseNegativePrompt_ok_inv hn
    obtain ⟨hsv, _⟩ := parseSeed_ok_inv hs
    exact ⟨by rw [h1, hnv], by rw [h2, hsv], by rw [h3, hsp]⟩
  rcases hmt with rfl | rfl | rfl | rfl | rfl | rfl | rfl
  · obtain ⟨b, hb, hYeq⟩ := normalizeCore_ok_inv h
    exact main b hb (by rw [hYeq]) (by rw [hYeq]) (by rw [hYeq])
  · obtain ⟨b, st, hb, _, _, hYeq⟩ := normalizeSD35_ok_inv h
    exact main b hb (by rw [hYeq]) (by rw [hYeq]) (by rw [hYeq])
  · obtain ⟨b, st, hb, _, hYeq⟩ := normalizeUltra_ok_inv h
    exact main b hb (by rw [hYeq]) (by rw [hYeq]) (by rw [hYeq])
  · obtain ⟨b, cs, hb, _, hYeq⟩ := normalizeSketch_ok_inv h
    exact main b hb (by rw [hYeq]) (by rw [hYeq]) (by rw [hYeq])
  · obtain ⟨b, cs, hb, _, hYeq⟩ := normalizeStructure_ok_inv h
    exact main b hb (by rw [hYeq]) (by rw [hYeq]) (by rw [hYeq])
  · obtain ⟨b, cs, fid, hb, _, _, hYeq⟩ := normalizeStyleGuide_ok_inv h
    exact main b hb (by rw [hYeq]) (by rw [hYeq]) (by rw [hYeq])
  · obtain ⟨b, ss, cf, ch, hb, _, _, _, hYeq⟩ := normalizeStyleTransfer_ok_inv h
    exact main b hb (by rw [hYeq]) (by rw [hYeq]) (by rw [hYeq])

/-- Witness for the amended C2 at the concrete Core request `{prompt: "hi"}`. -/
theorem claim_C2_amended_witness :
    ({ RawFields.empty with
       prompt := some "hi",
       output_format := some OutputFormat.png,
       style_preset := some StylePreset.nonePreset,
       aspect_ratio := some AspectRatio.square } : RawFields).negative_prompt =
      ({ RawFields.empty with prompt := some "hi" } : RawFields).negative_prompt ∧
    ({ RawFields.empty with
       prompt := some "hi",
       output_format := some OutputFormat.png,
       style_preset := some StylePreset.nonePreset,
       aspect_ratio := some AspectRatio.square } : RawFields).seed =
      ({ RawFields.empty with prompt := some "hi" } : RawFields).seed ∧
    ({ RawFields.empty with
       prompt := some "hi",
       output_format := some OutputFormat.png,
       style_preset := some StylePreset.nonePreset,
       aspect_ratio := some AspectRatio.square } : RawFields).style_preset =
      some (({ RawFields.empty with
               prompt := some "hi" } : RawFields).style_preset.getD .nonePreset) :=
  claim_C2_amended "core" (by decide) { RawFields.empty with prompt := some "hi" }
    _ (by rfl)

/-- C1: SD35 cross-field rules.  At the schema level
(`validate_request_for_model "sd35"`): image-to-image mode with no strength
is rejected with a validation error; on success `aspect_ratio` is present
iff the resolved mode is text-to-image, defaulting to `1:1` when omitted;
in text-to-image mode strength is never required.  At the client level
(`generate_sd35_image`): image-to-image mode with no image attachment, or
with no strength, raises before any request is issued. -/
theorem claim_C1_sd35_mode_rules :
    (∀ r : RawFields, r.mode = some .imageToImage → r.strength = none →
      ∃ msg, validate_request_for_model "sd35" r = .error (.validation msg)) ∧
    (∀ r Y : RawFields, validate_request_for_model "sd35" r = .ok Y →
      (Y.aspect_ratio.isSome ↔ r.mode.getD .textToImage = .textToImage)) ∧
    (∀ r Y : RawFields, r.mode.getD .textToImage = .textToImage →
      r.aspect_ratio = none → validate_request_for_model "sd35" r = .ok Y →
      Y.aspect_ratio = some AspectRatio.square) ∧
    (∀ (r : RawFields) (b : BaseOut), r.mode.getD .textToImage = .textToImage →
      r.strength = none → parseBase r = .ok b →
      ∃ Y, validate_request_for_model "sd35" r = .ok Y) ∧
    (∀ (net : HttpRequest → HttpResponse) (prompt model : String)
        (strength : Option Rat) (aspect_ratio : Option String)
        (output_format : String) (style_preset negative_prompt : Option String)
        (seed : Option Int),
      generate_sd35_image net prompt "image-to-image" model none strength
          aspect_ratio output_format style_preset negative_prompt seed =
        ([], .error (.valueError "image-to-image 모드에서는 입력 이미지가 필요합니다"))) ∧
    (∀ (net : HttpRequest → HttpResponse) (prompt model : String)
        (img : ImageInput) (aspect_ratio : Option String)
        (output_format : String) (style_preset negative_prompt : Option String)
        (seed : Option Int),
      generate_sd35_image net prompt "image-to-image" model (some img) none
          aspect_ratio output_format style_preset negative_prompt seed =
        ([], .error (.valueError "image-to-image 모드에서는 strength가 필요합니다"))) := by
  refine ⟨?_, ?_, ?_, ?_, ?_, ?_⟩
  · intro r hm hst
    cases hout : validate_request_for_model "sd35" r with
    | ok Y =>
      exfalso
      obtain ⟨b, st, hb, hstp, hcond, _⟩ := normalizeSD35_ok_inv hout
      obtain ⟨hsteq, _⟩ := parseRangedOpt_ok_inv hstp
      exact hcond ⟨by rw [hm]; rfl, by rw [hsteq, hst]⟩
    | error e =>
      obtain ⟨m, rfl⟩ := normalizeSD35_err_inv hout
      exact ⟨m, rfl⟩
  · intro r Y h
    obtain ⟨b, st, _, _, _, hYeq⟩ := normalizeSD35_ok_inv h
    cases hm : r.mode.getD .textToImage <;> simp [hYeq, hm]
  · intro r Y hm har h
    obtain ⟨b, st, _, _, _, hYeq⟩ := normalizeSD35_ok_inv h
    simp [hYeq, hm, har]
  · intro r b hm hst hb
    have : normSucceeds (normalizeSD35 r) := by
      rw [normalizeSD35_succeeds_iff]
      refine ⟨⟨b, hb⟩, ⟨none, ?_, ?_⟩⟩
      · rw [hst]
        rfl
      · rw [hm]
        simp
    obtain ⟨Y, hY⟩ := this
    exact ⟨Y, hY⟩
  · intro net prompt model strength aspect_ratio output_format sp np seed
    rfl
  · intro net prompt model img aspect_ratio output_format sp np seed
    rfl

/-- Witness for C1: SD35 image-to-image with no strength is rejected. -/
theorem claim_C1_sd35_mode_rules_witness :
    ∃ msg, validate_request_for_model "sd35"
        { RawFields.empty with
          prompt := some "p",
          mode := some GenerationMode.imageToImage } =
      .error (.validation msg) :=
  claim_C1_sd35_mode_rules.1
    { RawFields.empty with
      prompt := some "p",
      mode := some GenerationMode.imageToImage } rfl rfl

/-- C8: `style_transfer` with a missing style image (and symmetrically a
missing init image) raises the local `ValueError` from
`_prepare_image_file` and issues no HTTP request. -/
theorem claim_C8_style_transfer_missing_image
    (net : HttpRequest → HttpResponse) (init style : Option ImageInput)
    (prompt : Option String) (ss cf ch : Rat) (fmt : String)
    (np : Option String) (seed : Option Int) :
    (style = none →
      (style_transfer net init style prompt ss cf ch fmt np seed).1 = [] ∧
      (style_transfer net init style prompt ss cf ch fmt np seed).2 =
        .error (.valueError "지원되지 않는 이미지 형식")) ∧
    (init = none →
      (style_transfer net init style prompt ss cf ch fmt np seed).1 = [] ∧
      (style_transfer net init style prompt ss cf ch fmt np seed).2 =
        .error (.valueError "지원되지 않는 이미지 형식")) := by
  constructor
  · rintro rfl
    cases init with
    | none => exact ⟨rfl, rfl⟩
    | some i => exact ⟨rfl, rfl⟩
  · rintro rfl
    exact ⟨rfl, rfl⟩

/-- Witness for C8 at concrete arguments with the style image missing. -/
theorem claim_C8_style_transfer_missing_image_witness :
    (style_transfer (fun _ => ⟨200, "", none⟩) (some ImageInput.pilImage) none
        (some "p") 1 (9/10) (9/10) "png" none none).1 = [] ∧
    (style_transfer (fun _ => ⟨200, "", none⟩) (some ImageInput.pilImage) none
        (some "p") 1 (9/10) (9/10) "png" none none).2 =
      .error (.valueError "지원되지 않는 이미지 형식") :=
  (claim_C8_style_transfer_missing_image (fun _ => ⟨200, "", none⟩)
    (some ImageInput.pilImage) none (some "p") 1 (9/10) (9/10) "png" none none).1 rfl

/-- C3: on a decodable image of a supported MIME type, the validator accepts
iff size ≤ 50 MiB, both dimensions ≥ 64, pixel count ≤ 9,437,184 and
aspect ratio ≤ 2.5 (all inclusive); when several rules are violated, the
message is that of the first violated rule in the order
size → min-dimension → max-pixel-count → aspect-ratio. -/
theorem claim_C3_image_validator (u : UploadedFile)
    (hmime : u.mime = "image/jpeg" ∨ u.mime = "image/png" ∨ u.mime = "image/webp")
    (hdec : u.decodable = true) :
    ((validate_image_file (some u)).1 = true ↔
      (u.size ≤ 50 * 1024 * 1024 ∧ 64 ≤ u.width ∧ 64 ≤ u.height ∧
       u.width * u.height ≤ 9437184 ∧
       2 * max u.width u.height ≤ 5 * min u.width u.height)) ∧
    (50 * 1024 * 1024 < u.size → (validate_image_file (some u)).2 = msgTooLarge) ∧
    (u.size ≤ 50 * 1024 * 1024 → (u.width < 64 ∨ u.height < 64) →
      (validate_image_file (some u)).2 = msgTooSmall) ∧
    (u.size ≤ 50 * 1024 * 1024 → 64 ≤ u.width → 64 ≤ u.height →
      9437184 < u.width * u.height →
      (validate_image_file (some u)).2 = msgTooManyPixels) ∧
    (u.size ≤ 50 * 1024 * 1024 → 64 ≤ u.width → 64 ≤ u.height →
      u.width * u.height ≤ 9437184 →
      5 * min u.width u.height < 2 * max u.width u.height →
      (validate_image_file (some u)).2 = msgBadAspect) := by
  have hm : ¬¬(u.mime = "image/jpeg" ∨ u.mime = "image/png" ∨ u.mime = "image/webp") :=
    not_not_intro hmime
  simp only [validate_image_file, hdec, Bool.not_true, not_false_eq_true,
    if_neg hm]
  norm_num
  split_ifs with h1 h2 h3 h4
  · refine ⟨by simp; omega, fun _ => rfl, ?_, ?_, ?_⟩
    · intro hs _
      omega
    · intro hs _ _ _
      omega
    · intro hs _ _ _ _
      omega
  · refine ⟨by simp; rcases h2 with h | h <;> intro c <;> omega, ?_, ?_, ?_, ?_⟩
    · intro hlt
      omega
    · intro _ _
      rfl
    · intro _ hw hh _
      rcases h2 with h | h <;> omega
    · intro _ hw hh _ _
      rcases h2 with h | h <;> omega
  · refine ⟨by simp; intro c1 c2 c3 c4; omega, ?_, ?_, ?_, ?_⟩
    · intro hlt
      omega
    · intro _ hd
      rcases hd with h | h <;> omega
    · intro _ _ _ _
      rfl
    · intro _ _ _ hpx _
      omega
  · refine ⟨by simp; intro c1 c2 c3 c4; omega, ?_, ?_, ?_, ?_⟩
    · intro hlt
      omega
    · intro _ hd
      rcases hd with h | h <;> omega
    · intro _ _ _ hpx
      omega
    · intro _ _ _ _ _
      rfl
  · refine ⟨?_, ?_, ?_, ?_, ?_⟩
    · simp
      omega
    · intro hlt
      omega
    · intro _ hd
      rcases hd with h | h <;> omega
    · intro _ _ _ hpx
      omega
    · intro _ _ _ _ hasp
      omega

/-- Witness for C3: a 160×64 PNG (aspect ratio exactly 2.5) passes. -/
theorem claim_C3_image_validator_witness :
    (validate_image_file (some ⟨"image/png", 1000, true, 160, 64⟩)).1 = true :=
  ((claim_C3_image_validator ⟨"image/png", 1000, true, 160, 64⟩
    (Or.inr (Or.inl rfl)) rfl).1).mpr (by decide)

/-- C5: `_make_request` classifies responses by status code: 200 is returned
to the caller carrying the raw body, 202 is returned as the accepted
outcome, and any other status raises an error that always carries the
numeric status code, with a message from the `message` field of a JSON
error body when the body parses as JSON, and from the raw response text
otherwise. -/
theorem claim_C5_response_interpreter (r : HttpResponse) :
    (r.status = 200 → interpretResponse r = .ok r) ∧
    (r.status = 202 → interpretResponse r = .ok r) ∧
    (r.status ≠ 200 → r.status ≠ 202 →
      ∀ obj m, r.jsonFields = some obj → List.lookup "message" obj = some m →
        interpretResponse r = .error (.apiError m (some r.status))) ∧
    (r.status ≠ 200 → r.status ≠ 202 → r.jsonFields = none → r.body ≠ "" →
      interpretResponse r = .error (.apiError r.body (some r.status))) ∧
    (∀ m sc, interpretResponse r = .error (.apiError m sc) → sc = some r.status) := by
  refine ⟨?_, ?_, ?_, ?_, ?_⟩
  · intro h200
    unfold interpretResponse
    rw [if_pos h200]
  · intro h202
    unfold interpretResponse
    rw [if_neg (by rw [h202]; decide), if_pos h202]
  · intro h200 h202 obj m hjson hm
    unfold interpretResponse
    rw [if_neg h200, if_neg h202, hjson]
    simp [hm]
  · intro h200 h202 hjson hbody
    unfold interpretResponse
    rw [if_neg h200, if_neg h202, hjson]
    simp [hbody]
  · intro m sc h
    unfold interpretResponse at h
    split_ifs at h with h200 h202 hbody
    · cases hj : r.jsonFields with
      | some obj =>
        rw [hj] at h
        simp at h
        exact h.2.symm
      | none =>
        rw [hj] at h
        simp at h
        exact h.2.symm
    · cases hj : r.jsonFields with
      | some obj =>
        rw [hj] at h
        simp at h
        exact h.2.symm
      | none =>
        rw [hj] at h
        simp at h
        exact h.2.symm

/-- Witness for C5: a 404 with a non-JSON body `"boom"`. -/
theorem claim_C5_response_interpreter_witness :
    interpretResponse ⟨404, "boom", none⟩ =
      .error (.apiError "boom" (some 404)) :=
  (claim_C5_response_interpreter ⟨404, "boom", none⟩).2.2.2.1
    (by decide) (by decide) rfl (by decide)

/-- A minimal otherwise-valid request used as the base for the boundary
acceptance facts. -/
def promptOnly : RawFields := { RawFields.empty with prompt := some "p" }

theorem reject_helper {x : Except NormError RawFields}
    (herr : ∀ e, x = .error e → ∃ m, e = .validation m)
    (hok : ∀ Y, x = .ok Y → False) :
    ∃ msg, x = .error (.validation msg) := by
  cases hx : x with
  | ok Y => exact (hok Y hx).elim
  | error e =>
    obtain ⟨m, rfl⟩ := herr e hx
    exact ⟨m, rfl⟩

/-- C6: every `*_strength`/`fidelity` field is range-checked on [0,1] —
except `change_strength`, checked on [0.1,1] — values outside the range are
rejected with a validation error; any in-range value (the boundaries
included) is accepted whenever the rest of the request is valid, as shown
by the acceptance equivalences and the concrete boundary successes. -/
theorem claim_C6_strength_ranges :
    (∀ (r : RawFields) (q : Rat), r.strength = some q → (q < 0 ∨ 1 < q) →
      ∃ msg, validate_request_for_model "sd35" r = .error (.validation msg)) ∧
    (∀ (r : RawFields) (q q' : Rat), 0 ≤ q → q ≤ 1 → 0 ≤ q' → q' ≤ 1 →
      (normSucceeds (validate_request_for_model "sd35" { r with strength := some q }) ↔
       normSucceeds (validate_request_for_model "sd35" { r with strength := some q' }))) ∧
    normSucceeds (validate_request_for_model "sd35" { promptOnly with strength := some 0 }) ∧
    normSucceeds (validate_request_for_model "sd35" { promptOnly with strength := some 1 }) ∧
    (∀ (r : RawFields) (q : Rat), r.strength = some q → (q < 0 ∨ 1 < q) →
      ∃ msg, validate_request_for_model "ultra" r = .error (.validation msg)) ∧
    (∀ (r : RawFields) (q q' : Rat), 0 ≤ q → q ≤ 1 → 0 ≤ q' → q' ≤ 1 →
      (normSucceeds (validate_request_for_model "ultra" { r with strength := some q }) ↔
       normSucceeds (validate_request_for_model "ultra" { r with strength := some q' }))) ∧
    normSucceeds (validate_request_for_model "ultra" { promptOnly with strength := some 0 }) ∧
    normSucceeds (validate_request_for_model "ultra" { promptOnly with strength := some 1 }) ∧
    (∀ (r : RawFields) (q : Rat), r.control_strength = some q → (q < 0 ∨ 1 < q) →
      ∃ msg, validate_request_for_model "sketch" r = .error (.validation msg)) ∧
    (∀ (r : RawFields) (q q' : Rat), 0 ≤ q → q ≤ 1 → 0 ≤ q' → q' ≤ 1 →
      (normSucceeds (validate_request_for_model "sketch" { r with control_strength := some q }) ↔
       normSucceeds (validate_request_for_model "sketch" { r with control_strength := some q' }))) ∧
    normSucceeds (validate_request_for_model "sketch" { promptOnly with control_strength := some 0 }) ∧
    normSucceeds (validate_request_for_model "sketch" { promptOnly with control_strength := some 1 }) ∧
    (∀ (r : RawFields) (q : Rat), r.control_strength = some q → (q < 0 ∨ 1 < q) →
      ∃ msg, validate_request_for_model "structure" r = .error (.validation msg)) ∧
    (∀ (r : RawFields) (q q' : Rat), 0 ≤ q → q ≤ 1 → 0 ≤ q' → q' ≤ 1 →
      (normSucceeds (validate_request_for_model "structure" { r with control_strength := some q }) ↔
       normSucceeds (validate_request_for_model "structure" { r with control_strength := some q' }))) ∧
    normSucceeds (validate_request_for_model "structure" { promptOnly with control_strength := some 0 }) ∧
    normSucceeds (validate_request_for_model "structure" { promptOnly with control_strength := some 1 }) ∧
    (∀ (r : RawFields) (q : Rat), r.control_strength = some q → (q < 0 ∨ 1 < q) →
      ∃ msg, validate_request_for_model "style_guide" r = .error (.validation msg)) ∧
    (∀ (r : RawFields) (q q' : Rat), 0 ≤ q → q ≤ 1 → 0 ≤ q' → q' ≤ 1 →
      (normSucceeds (validate_request_for_model "style_guide" { r with control_strength := some q }) ↔
       normSucceeds (validate_request_for_model "style_guide" { r with control_strength := some q' }))) ∧
    normSucceeds (validate_request_for_model "style_guide" { promptOnly with control_strength := some 0 }) ∧
    normSucceeds (validate_request_for_model "style_guide" { promptOnly with control_strength := some 1 }) ∧
    (∀ (r : RawFields) (q : Rat), r.fidelity = some q → (q < 0 ∨ 1 < q) →
      ∃ msg, validate_request_for_model "style_guide" r = .error (.validation msg)) ∧
    (∀ (r : RawFields) (q q' : Rat), 0 ≤ q → q ≤ 1 → 0 ≤ q' → q' ≤ 1 →
      (normSucceeds (validate_request_for_model "style_guide" { r with fidelity := some q }) ↔
       normSucceeds (validate_request_for_model "style_guide" { r with fidelity := some q' }))) ∧
    normSucceeds (validate_request_for_model "style_guide" { promptOnly with fidelity := some 0 }) ∧
    normSucceeds (validate_request_for_model "style_guide" { promptOnly with fidelity := some 1 }) ∧
    (∀ (r : RawFields) (q : Rat), r.style_strength = some q → (q < 0 ∨ 1 < q) →
      ∃ msg, validate_request_for_model "style_transfer" r = .error (.validation msg)) ∧
    (∀ (r : RawFields) (q q' : Rat), 0 ≤ q → q ≤ 1 → 0 ≤ q' → q' ≤ 1 →
      (normSucceeds (validate_request_for_model "style_transfer" { r with style_strength := some q }) ↔
       normSucceeds (validate_request_for_model "style_transfer" { r with style_strength := some q' }))) ∧
    normSucceeds (validate_request_for_model "style_transfer" { promptOnly with style_strength := some 0 }) ∧
    normSucceeds (validate_request_for_model "style_transfer" { promptOnly with style_strength := some 1 }) ∧
    (∀ (r : RawFields) (q : Rat), r.composition_fidelity = some q → (q < 0 ∨ 1 < q) →
      ∃ msg, validate_request_for_model "style_transfer" r = .error (.validation msg)) ∧
    (∀ (r : RawFields) (q q' : Rat), 0 ≤ q → q ≤ 1 → 0 ≤ q' → q' ≤ 1 →
      (normSucceeds (validate_request_for_model "style_transfer" { r with composition_fidelity := some q }) ↔
       normSucceeds (validate_request_for_model "style_transfer" { r with composition_fidelity := some q' }))) ∧
    normSucceeds (validate_request_for_model "style_transfer" { promptOnly with composition_fidelity := some 0 }) ∧
    normSucceeds (validate_request_for_model "style_transfer" { promptOnly with composition_fidelity := some 1 }) ∧
    (∀ (r : RawFields) (q : Rat), r.change_strength = some q → (q < 1/10 ∨ 1 < q) →
      ∃ msg, validate_request_for_model "style_transfer" r = .error (.validation msg)) ∧
    (∀ (r : RawFields) (q q' : Rat), 1/10 ≤ q → q ≤ 1 → 1/10 ≤ q' → q' ≤ 1 →
      (normSucceeds (validate_request_for_model "style_transfer" { r with change_strength := some q }) ↔
       normSucceeds (validate_request_for_model "style_transfer" { r with change_strength := some q' }))) ∧
    normSucceeds (validate_request_for_model "style_transfer" { promptOnly with change_strength := some (1/10) }) ∧
    normSucceeds (validate_request_for_model "style_transfer" { promptOnly with change_strength := some 1 }) := by
  refine ⟨?_, ?_, ?_, ?_, ?_, ?_, ?_, ?_,
          ?_, ?_, ?_, ?_, ?_, ?_, ?_, ?_,
          ?_, ?_, ?_, ?_, ?_, ?_, ?_, ?_,
          ?_, ?_, ?_, ?_, ?_, ?_, ?_, ?_,
          ?_, ?_, ?_, ?_⟩
  · intro r q hfq hout
    refine reject_helper (fun e he => normalizeSD35_err_inv he) ?_
    intro Y hY
    obtain ⟨b, st, _, hstp, _, _⟩ := normalizeSD35_ok_inv hY
    obtain ⟨_, hrange⟩ := parseRangedOpt_ok_inv hstp
    obtain ⟨hr1, hr2⟩ := hrange q hfq
    rcases hout with h | h <;> linarith
  · intro r q q' hq1 hq2 hq1' hq2'
    show normSucceeds (normalizeSD35 { r with strength := some q }) ↔
         normSucceeds (normalizeSD35 { r with strength := some q' })
    rw [normalizeSD35_succeeds_iff, normalizeSD35_succeeds_iff,
        show parseBase { r with strength := some q } =
          parseBase { r with strength := some q' } from rfl,
        show ({ r with strength := some q } : RawFields).strength =
          some q from rfl,
        show ({ r with strength := some q' } : RawFields).strength =
          some q' from rfl,
        show ({ r with strength := some q } : RawFields).mode =
          r.mode from rfl,
        show ({ r with strength := some q' } : RawFields).mode =
          r.mode from rfl,
        parseRangedOpt_in hq1 hq2,
        parseRangedOpt_in hq1' hq2']
    simp
  · show normSucceeds (normalizeSD35 { promptOnly with strength := some 0 })
    rw [normalizeSD35_succeeds_iff]
    refine ⟨⟨⟨"p", none, .png, .nonePreset, none⟩, by rfl⟩, ⟨some 0, ?_, ?_⟩⟩
    · exact parseRangedOpt_in (by norm_num) (by norm_num)
    · simp
  · show normSucceeds (normalizeSD35 { promptOnly with strength := some 1 })
    rw [normalizeSD35_succeeds_iff]
    refine ⟨⟨⟨"p", none, .png, .nonePreset, none⟩, by rfl⟩, ⟨some 1, ?_, ?_⟩⟩
    · exact parseRangedOpt_in (by norm_num) (by norm_num)
    · simp
  · intro r q hfq hout
    refine reject_helper (fun e he => normalizeUltra_err_inv he) ?_
    intro Y hY
    obtain ⟨b, st, _, hstp, _⟩ := normalizeUltra_ok_inv hY
    obtain ⟨_, hrange⟩ := parseRangedOpt_ok_inv hstp
    obtain ⟨hr1, hr2⟩ := hrange q hfq
    rcases hout with h | h <;> linarith
  · intro r q q' hq1 hq2 hq1' hq2'
    show normSucceeds (normalizeUltra { r with strength := some q }) ↔
         normSucceeds (normalizeUltra { r with strength := some q' })
    rw [normalizeUltra_succeeds_iff, normalizeUltra_succeeds_iff,
        show parseBase { r with strength := some q } =
          parseBase { r with strength := some q' } from rfl,
        show ({ r with strength := some q } : RawFields).strength =
          some q from rfl,
        show ({ r with strength := some q' } : RawFields).strength =
          some q' from rfl,
        parseRangedOpt_in hq1 hq2,
        parseRangedOpt_in hq1' hq2']
    simp
  · show normSucceeds (normalizeUltra { promptOnly with strength := some 0 })
    rw [normalizeUltra_succeeds_iff]
    exact ⟨⟨⟨"p", none, .png, .nonePreset, none⟩, by rfl⟩, ⟨some 0, parseRangedOpt_in (by norm_num) (by norm_num)⟩⟩
  · show normSucceeds (normalizeUltra { promptOnly with strength := some 1 })
    rw [normalizeUltra_succeeds_iff]
    exact ⟨⟨⟨"p", none, .png, .nonePreset, none⟩, by rfl⟩, ⟨some 1, parseRangedOpt_in (by norm_num) (by norm_num)⟩⟩
  · intro r q hfq hout
    refine reject_helper (fun e he => normalizeSketch_err_inv he) ?_
    intro Y hY
    obtain ⟨b, cs, _, hfp, _⟩ := normalizeSketch_ok_inv hY
    rcases parseRangedDefault_ok_inv hfp with ⟨hnone, _⟩ | ⟨hsome, hr1, hr2⟩
    · rw [hfq] at hnone
      exact Option.noConfusion hnone
    · rw [hfq] at hsome
      cases Option.some.inj hsome
      rcases hout with h | h <;> linarith
  · intro r q q' hq1 hq2 hq1' hq2'
    show normSucceeds (normalizeSketch { r with control_strength := some q }) ↔
         normSucceeds (normalizeSketch { r with control_strength := some q' })
    rw [normalizeSketch_succeeds_iff, normalizeSketch_succeeds_iff,
        show parseBase { r with control_strength := some q } =
          parseBase { r with control_strength := some q' } from rfl,
        show ({ r with control_strength := some q } : RawFields).control_strength =
          some q from rfl,
        show ({ r with control_strength := some q' } : RawFields).control_strength =
          some q' from rfl,
        parseRangedDefault_in hq1 hq2,
        parseRangedDefault_in hq1' hq2']
    simp
  · show normSucceeds (normalizeSketch { promptOnly with control_strength := some 0 })
    rw [normalizeSketch_succeeds_iff]
    exact ⟨⟨⟨"p", none, .png, .nonePreset, none⟩, by rfl⟩, ⟨0, parseRangedDefault_in (by norm_num) (by norm_num)⟩⟩
  · show normSucceeds (normalizeSketch { promptOnly with control_strength := some 1 })
    rw [normalizeSketch_succeeds_iff]
    exact ⟨⟨⟨"p", none, .png, .nonePreset, none⟩, by rfl⟩, ⟨1, parseRangedDefault_in (by norm_num) (by norm_num)⟩⟩
  · intro r q hfq hout
    refine reject_helper (fun e he => normalizeStructure_err_inv he) ?_
    intro Y hY
    obtain ⟨b, cs, _, hfp, _⟩ := normalizeStructure_ok_inv hY
    rcases parseRangedDefault_ok_inv hfp with ⟨hnone, _⟩ | ⟨hsome, hr1, hr2⟩
    · rw [hfq] at hnone
      exact Option.noConfusion hnone
    · rw [hfq] at hsome
      cases Option.some.inj hsome
      rcases hout with h | h <;> linarith
  · intro r q q' hq1 hq2 hq1' hq2'
    show normSucceeds (normalizeStructure { r with control_strength := some q }) ↔
         normSucceeds (normalizeStructure { r with control_strength := some q' })
    rw [normalizeStructure_succeeds_iff, normalizeStructure_succeeds_iff,
        show parseBase { r with control_strength := some q } =
          parseBase { r with control_strength := some q' } from rfl,
        show ({ r with control_strength := some q } : RawFields).control_strength =
          some q from rfl,
        show ({ r with control_strength := some q' } : RawFields).control_strength =
          some q' from rfl,
        parseRangedDefault_in hq1 hq2,
        parseRangedDefault_in hq1' hq2']
    simp
  · show normSucceeds (normalizeStructure { promptOnly with control_strength := some 0 })
    rw [normalizeStructure_succeeds_iff]
    exact ⟨⟨⟨"p", none, .png, .nonePreset, none⟩, by rfl⟩, ⟨0, parseRangedDefault_in (by norm_num) (by norm_num)⟩⟩
  · show normSucceeds (normalizeStructure { promptOnly with control_strength := some 1 })
    rw [normalizeStructure_succeeds_iff]
    exact ⟨⟨⟨"p", none, .png, .nonePreset, none⟩, by rfl⟩, ⟨1, parseRangedDefault_in (by norm_num) (by norm_num)⟩⟩
  · intro r q hfq hout
    refine reject_helper (fun e he => normalizeStyleGuide_err_inv he) ?_
    intro Y hY
    obtain ⟨b, cs, fid, _, hfp, _, _⟩ := normalizeStyleGuide_ok_inv hY
    rcases parseRangedDefault_ok_inv hfp with ⟨hnone, _⟩ | ⟨hsome, hr1, hr2⟩
    · rw [hfq] at hnone
      exact Option.noConfusion hnone
    · rw [hfq] at hsome
      cases Option.some.inj hsome
      rcases hout with h | h <;> linarith
  · intro r q q' hq1 hq2 hq1' hq2'
    show normSucceeds (normalizeStyleGuide { r with control_strength := some q }) ↔
         normSucceeds (normalizeStyleGuide { r with control_strength := some q' })
    rw [normalizeStyleGuide_succeeds_iff, normalizeStyleGuide_succeeds_iff,
        show parseBase { r with control_strength := some q } =
          parseBase { r with control_strength := some q' } from rfl,
        show ({ r with control_strength := some q } : RawFields).control_strength =
          some q from rfl,
        show ({ r with control_strength := some q' } : RawFields).control_strength =
          some q' from rfl,
        show ({ r with control_strength := some q } : RawFields).fidelity =
          r.fidelity from rfl,
        show ({ r with control_strength := some q' } : RawFields).fidelity =
          r.fidelity from rfl,
        parseRangedDefault_in hq1 hq2,
        parseRangedDefault_in hq1' hq2']
    simp
  · show normSucceeds (normalizeStyleGuide { promptOnly with control_strength := some 0 })
    rw [normalizeStyleGuide_succeeds_iff]
    exact ⟨⟨⟨"p", none, .png, .nonePreset, none⟩, by rfl⟩, ⟨0, parseRangedDefault_in (by norm_num) (by norm_num)⟩, ⟨1/2, rfl⟩⟩
  · show normSucceeds (normalizeStyleGuide { promptOnly with control_strength := some 1 })
    rw [normalizeStyleGuide_succeeds_iff]
    exact ⟨⟨⟨"p", none, .png, .nonePreset, none⟩, by rfl⟩, ⟨1, parseRangedDefault_in (by norm_num) (by norm_num)⟩, ⟨1/2, rfl⟩⟩
  · intro r q hfq hout
    refine reject_helper (fun e he => normalizeStyleGuide_err_inv he) ?_
    intro Y hY
    obtain ⟨b, cs, fid, _, _, hfp, _⟩ := normalizeStyleGuide_ok_inv hY
    rcases parseRangedDefault_ok_inv hfp with ⟨hnone, _⟩ | ⟨hsome, hr1, hr2⟩
    · rw [hfq] at hnone
      exact Option.noConfusion hnone
    · rw [hfq] at hsome
      cases Option.some.inj hsome
      rcases hout with h | h <;> linarith
  · intro r q q' hq1 hq2 hq1' hq2'
    show normSucceeds (normalizeStyleGuide { r with fidelity := some q }) ↔
         normSucceeds (normalizeStyleGuide { r with fidelity := some q' })
    rw [normalizeStyleGuide_succeeds_iff, normalizeStyleGuide_succeeds_iff,
        show parseBase { r with fidelity := some q } =
          parseBase { r with fidelity := some q' } from rfl,
        show ({ r with fidelity := some q } : RawFields).fidelity =
          some q from rfl,
        show ({ r with fidelity := some q' } : RawFields).fidelity =
          some q' from rfl,
        show ({ r with fidelity := some q } : RawFields).control_strength =
          r.control_strength from rfl,
        show ({ r with fidelity := some q' } : RawFields).control_strength =
          r.control_strength from rfl,
        parseRangedDefault_in hq1 hq2,
        parseRangedDefault_in hq1' hq2']
    simp
  · show normSucceeds (normalizeStyleGuide { promptOnly with fidelity := some 0 })
    rw [normalizeStyleGuide_succeeds_iff]
    exact ⟨⟨⟨"p", none, .png, .nonePreset, none⟩, by rfl⟩, ⟨7/10, rfl⟩, ⟨0, parseRangedDefault_in (by norm_num) (by norm_num)⟩⟩
  · show normSucceeds (normalizeStyleGuide { promptOnly with fidelity := some 1 })
    rw [normalizeStyleGuide_succeeds_iff]
    exact ⟨⟨⟨"p", none, .png, .nonePreset, none⟩, by rfl⟩, ⟨7/10, rfl⟩, ⟨1, parseRangedDefault_in (by norm_num) (by norm_num)⟩⟩
  · intro r q hfq hout
    refine reject_helper (fun e he => normalizeStyleTransfer_err_inv he) ?_
    intro Y hY
    obtain ⟨b, ss, cf, ch, _, hfp, _, _, _⟩ := normalizeStyleTransfer_ok_inv hY
    rcases parseRangedDefault_ok_inv hfp with ⟨hnone, _⟩ | ⟨hsome, hr1, hr2⟩
    · rw [hfq] at hnone
      exact Option.noConfusion hnone
    · rw [hfq] at hsome
      cases Option.some.inj hsome
      rcases hout with h | h <;> linarith
  · intro r q q' hq1 hq2 hq1' hq2'
    show normSucceeds (normalizeStyleTransfer { r with style_strength := some q }) ↔
         normSucceeds (normalizeStyleTransfer { r with style_strength := some q' })
    rw [normalizeStyleTransfer_succeeds_iff, normalizeStyleTransfer_succeeds_iff,
        show parseBase { r with style_strength := some q } =
          parseBase { r with style_strength := some q' } from rfl,
        show ({ r with style_strength := some q } : RawFields).style_strength =
          some q from rfl,
        show ({ r with style_strength := some q' } : RawFields).style_strength =
          some q' from rfl,
        show ({ r with style_strength := some q } : RawFields).composition_fidelity =
          r.composition_fidelity from rfl,
        show ({ r with style_strength := some q' } : RawFields).composition_fidelity =
          r.composition_fidelity from rfl,
        show ({ r with style_strength := some q } : RawFields).change_strength =
          r.change_strength from rfl,
        show ({ r with style_strength := some q' } : RawFields).change_strength =
          r.change_strength from rfl,
        parseRangedDefault_in hq1 hq2,
        parseRangedDefault_in hq1' hq2']
    simp
  · show normSucceeds (normalizeStyleTransfer { promptOnly with style_strength := some 0 })
    rw [normalizeStyleTransfer_succeeds_iff]
    exact ⟨⟨⟨"p", none, .png, .nonePreset, none⟩, by rfl⟩, ⟨0, parseRangedDefault_in (by norm_num) (by norm_num)⟩, ⟨9/10, rfl⟩, ⟨9/10, rfl⟩⟩
  · show normSucceeds (normalizeStyleTransfer { promptOnly with style_strength := some 1 })
    rw [normalizeStyleTransfer_succeeds_iff]
    exact ⟨⟨⟨"p", none, .png, .nonePreset, none⟩, by rfl⟩, ⟨1, parseRangedDefault_in (by norm_num) (by norm_num)⟩, ⟨9/10, rfl⟩, ⟨9/10, rfl⟩⟩
  · intro r q hfq hout
    refine reject_helper (fun e he => normalizeStyleTransfer_err_inv he) ?_
    intro Y hY
    obtain ⟨b, ss, cf, ch, _, _, hfp, _, _⟩ := normalizeStyleTransfer_ok_inv hY
    rcases parseRangedDefault_ok_inv hfp with ⟨hnone, _⟩ | ⟨hsome, hr1, hr2⟩
    · rw [hfq] at hnone
      exact Option.noConfusion hnone
    · rw [hfq] at hsome
      cases Option.some.inj hsome
      rcases hout with h | h <;> linarith
  · intro r q q' hq1 hq2 hq1' hq2'
    show normSucceeds (normalizeStyleTransfer { r with composition_fidelity := some q }) ↔
         normSucceeds (normalizeStyleTransfer { r with composition_fidelity := some q' })
    rw [normalizeStyleTransfer_succeeds_iff, normalizeStyleTransfer_succeeds_iff,
        show parseBase { r with composition_fidelity := some q } =
          parseBase { r with composition_fidelity := some q' } from rfl,
        show ({ r with composition_fidelity := some q } : RawFields).composition_fidelity =
          some q from rfl,
        show ({ r with composition_fidelity := some q' } : RawFields).composition_fidelity =
          some q' from rfl,
        show ({ r with composition_fidelity := some q } : RawFields).style_strength =
          r.style_strength from rfl,
        show ({ r with composition_fidelity := some q' } : RawFields).style_strength =
          r.style_strength from rfl,
        show ({ r with composition_fidelity := some q } : RawFields).change_strength =
          r.change_strength from rfl,
        show ({ r with composition_fidelity := some q' } : RawFields).change_strength =
          r.change_strength from rfl,
        parseRangedDefault_in hq1 hq2,
        parseRangedDefault_in hq1' hq2']
    simp
  · show normSucceeds (normalizeStyleTransfer { promptOnly with composition_fidelity := some 0 })
    rw [normalizeStyleTransfer_succeeds_iff]
    exact ⟨⟨⟨"p", none, .png, .nonePreset, none⟩, by rfl⟩, ⟨1, rfl⟩, ⟨0, parseRangedDefault_in (by norm_num) (by norm_num)⟩, ⟨9/10, rfl⟩⟩
  · show normSucceeds (normalizeStyleTransfer { promptOnly with composition_fidelity := some 1 })
    rw [normalizeStyleTransfer_succeeds_iff]
    exact ⟨⟨⟨"p", none, .png, .nonePreset, none⟩, by rfl⟩, ⟨1, rfl⟩, ⟨1, parseRangedDefault_in (by norm_num) (by norm_num)⟩, ⟨9/10, rfl⟩⟩
  · intro r q hfq hout
    refine reject_helper (fun e he => normalizeStyleTransfer_err_inv he) ?_
    intro Y hY
    obtain ⟨b, ss, cf, ch, _, _, _, hfp, _⟩ := normalizeStyleTransfer_ok_inv hY
    rcases parseRangedDefault_ok_inv hfp with ⟨hnone, _⟩ | ⟨hsome, hr1, hr2⟩
    · rw [hfq] at hnone
      exact Option.noConfusion hnone
    · rw [hfq] at hsome
      cases Option.some.inj hsome
      rcases hout with h | h <;> linarith
  · intro r q q' hq1 hq2 hq1' hq2'
    show normSucceeds (normalizeStyleTransfer { r with change_strength := some q }) ↔
         normSucceeds (normalizeStyleTransfer { r with change_strength := some q' })
    rw [normalizeStyleTransfer_succeeds_iff, normalizeStyleTransfer_succeeds_iff,
        show parseBase { r with change_strength := some q } =
          parseBase { r with change_strength := some q' } from rfl,
        show ({ r with change_strength := some q } : RawFields).change_strength =
          some q from rfl,
        show ({ r with change_strength := some q' } : RawFields).change_strength =
          some q' from rfl,
        show ({ r with change_strength := some q } : RawFields).style_strength =
          r.style_strength from rfl,
        show ({ r with change_strength := some q' } : RawFields).style_strength =
          r.style_strength from rfl,
        show ({ r with change_strength := some q } : RawFields).composition_fidelity =
          r.composition_fidelity from rfl,
        show ({ r with change_strength := some q' } : RawFields).composition_fidelity =
          r.composition_fidelity from rfl,
        parseRangedDefault_in hq1 hq2,
        parseRangedDefault_in hq1' hq2']
    simp
  · show normSucceeds (normalizeStyleTransfer { promptOnly with change_strength := some (1/10) })
    rw [normalizeStyleTransfer_succeeds_iff]
    exact ⟨⟨⟨"p", none, .png, .nonePreset, none⟩, by rfl⟩, ⟨1, rfl⟩, ⟨9/10, rfl⟩, ⟨(1/10), parseRangedDefault_in (by norm_num) (by norm_num)⟩⟩
  · show normSucceeds (normalizeStyleTransfer { promptOnly with change_strength := some 1 })
    rw [normalizeStyleTransfer_succeeds_iff]
    exact ⟨⟨⟨"p", none, .png, .nonePreset, none⟩, by rfl⟩, ⟨1, rfl⟩, ⟨9/10, rfl⟩, ⟨1, parseRangedDefault_in (by norm_num) (by norm_num)⟩⟩

/-- Witness for C6: SD35 strength 1.5 is rejected with a validation error. -/
theorem claim_C6_strength_ranges_witness :
    ∃ msg, validate_request_for_model "sd35"
        { promptOnly with strength := some (3/2) } =
      .error (.validation msg) :=
  claim_C6_strength_ranges.1 { promptOnly with strength := some (3/2) } (3/2)
    rfl (by norm_num)
